import Mathlib

/-!
Verification of the ogmigo chain-sync client (SundaeSwap-finance/ogmigo)
against its natural-language specification.

The Go source is shallowly embedded: each Go type becomes a Lean structure
or inductive, each (de)serialization method becomes a total Lean function.
Wire payloads are modelled at the level of parsed value trees (`Json` for
encoding/json, `Cbor` for fxamacker/cbor, `Attr` for AWS DynamoDB attribute
values); the text layer of the external serialization libraries is modelled
separately where a claim is about raw bytes.  Go errors are modelled by the
`GoErr` type, which records `fmt.Errorf("...: %w", err)` wrapping so that
claims about which underlying errors an error carries can be stated.
-/

namespace Ogmigo

/-- A parsed JSON document, the value-tree level of Go's encoding/json. -/
inductive Json where
  | str (s : String)
  | num (n : Int)
  | bool (b : Bool)
  | null
  | arr (xs : List Json)
  | obj (fields : List (String × Json))

/-- Look up the first field with the given key in an encoded object's field
list (the Go decoders fill struct fields from matching keys and ignore
unknown keys). -/
def assocLookup {κ α : Type} [DecidableEq κ] (fields : List (κ × α)) (key : κ) : Option α :=
  match fields with
  | [] => none
  | (k, v) :: rest => if k = key then some v else assocLookup rest key

/-- A decoded CBOR value, the value-tree level of fxamacker/cbor: text
strings, unsigned integers, null, integer-keyed maps (`keyasint` struct
tags) and text-keyed maps (untagged structs encode under their Go field
names). -/
inductive Cbor where
  | str (s : String)
  | nat (n : Nat)
  | null
  | imap (fields : List (Int × Cbor))
  | smap (fields : List (String × Cbor))

/-- A DynamoDB attribute value (aws-sdk-go `dynamodb.AttributeValue`),
restricted to the variants the embedded code produces and inspects.  In the
Go struct all member fields are pointers and `dynamodbattribute.Marshal`
populates exactly one of them; the constructors model which one. -/
inductive Attr where
  | S (s : String)
  | N (n : Int)
  | BOOLV (b : Bool)
  | NULLV
  | M (fields : List (String × Attr))
  | L (xs : List Attr)

/-- Go errors: a plain message (`errors.New`/`fmt.Errorf` without `%w`), a
message wrapping an inner error (`fmt.Errorf` with `%w` on a non-nil error),
or a message whose `%w` verb was handed a nil error. -/
inductive GoErr where
  | msg (s : String)
  | wrap (s : String) (inner : GoErr)
  | wrapNil (s : String)
  deriving DecidableEq, Repr

/-- `errors.Is`-style containment: does the error chain contain `target`? -/
def GoErr.contains : GoErr → GoErr → Bool
  | .msg s, target => decide (GoErr.msg s = target)
  | .wrap s inner, target =>
      decide (GoErr.wrap s inner = target) || inner.contains target
  | .wrapNil s, target => decide (GoErr.wrapNil s = target)

/-- Go's `PointType` (an int): 0 is the zero value of the type, 1 is
`PointTypeString`, 2 is `PointTypeStruct`. -/
inductive PointType where
  | unknown
  | stringType
  | structType
  deriving DecidableEq, Repr

/-- v6 `PointStruct`: `Height *uint64`, `ID string` (BLAKE2b_256 hash),
`Slot uint64`.  uint64 fields are modelled as `Nat` (the claims proved here
never exercise uint64 overflow on these fields). -/
structure PointStruct where
  height : Option Nat
  id : String
  slot : Nat
  deriving DecidableEq, Repr

/-- v6 `Point`: Go struct with a type discriminant, a string payload and an
optional (pointer) struct payload.  The Go zero value has `pointType = 0`. -/
structure Point where
  pointType : PointType
  pointString : String
  pointStruct : Option PointStruct
  deriving DecidableEq, Repr

/-- The zero value of the Go `Point` struct (`var p Point`). -/
def Point.zero : Point := ⟨PointType.unknown, "", none⟩

/-- `PointString.Point()`. -/
def PointString.toPoint (s : String) : Point :=
  ⟨PointType.stringType, s, none⟩

/-- `PointStruct.Point()`. -/
def PointStruct.toPoint (ps : PointStruct) : Point :=
  ⟨PointType.structType, "", some ps⟩

/-- `var Origin = PointString("origin").Point()`. -/
def Origin : Point := PointString.toPoint "origin"

/-- The numeric fields of a `PointStruct` fit in Go's `uint64`; a Lean `Nat`
outside this range corresponds to no Go value. -/
def PointStruct.inRange (ps : PointStruct) : Prop :=
  ps.height.getD 0 < 2 ^ 64 ∧ ps.slot < 2 ^ 64

instance (ps : PointStruct) : Decidable ps.inRange := by
  unfold PointStruct.inRange; infer_instance

/-- A `Point` as produced by the public constructors `PointString.Point()`
and `PointStruct.Point()`: exactly one variant populated, numeric fields in
uint64 range. -/
def Point.valid (p : Point) : Prop :=
  (p.pointType = PointType.stringType ∧ p.pointStruct = none) ∨
    (p.pointType = PointType.structType ∧ p.pointString = "" ∧
      p.pointStruct ≠ none ∧ (p.pointStruct.getD ⟨none, "", 0⟩).inRange)

instance (p : Point) : Decidable p.valid := by
  unfold Point.valid; infer_instance

/-- `Points.Less(i, j)` from the v6 source, as a binary comparison of the two
slice elements it reads.  The struct/struct arm dereferences `pointStruct`;
the Go code would panic on a nil pointer there, which cannot happen for
points whose type tag matches their payload (`Point.valid`). -/
def Points.less (pi pj : Point) : Bool :=
  if pi.pointType = PointType.structType ∧ pj.pointType = PointType.structType then
    decide ((pi.pointStruct.getD ⟨none, "", 0⟩).slot > (pj.pointStruct.getD ⟨none, "", 0⟩).slot)
  else if pi.pointType = PointType.structType then
    true
  else if pj.pointType = PointType.structType then
    false
  else
    decide (pi.pointString > pj.pointString)

/-- Go range check performed by the decoders when a JSON/attribute number is
stored into a `uint64` field. -/
def goUint64 (n : Int) : Except GoErr Nat :=
  if 0 ≤ n ∧ n < 2 ^ 64 then Except.ok n.toNat
  else Except.error (GoErr.msg "number out of range for uint64")

/-- encoding/json: store a JSON value into a `uint64` field (JSON null is a
no-op, leaving the field's current value). -/
def jsonSetUint64 (cur : Nat) : Json → Except GoErr Nat
  | Json.null => Except.ok cur
  | Json.num n => goUint64 n
  | _ => Except.error (GoErr.msg "json: cannot unmarshal value into uint64")

/-- encoding/json: store a JSON value into a `string` field. -/
def jsonSetString (cur : String) : Json → Except GoErr String
  | Json.null => Except.ok cur
  | Json.str s => Except.ok s
  | _ => Except.error (GoErr.msg "json: cannot unmarshal value into string")

/-- encoding/json: store a JSON value into a `*uint64` field (JSON null sets
the pointer to nil). -/
def jsonSetOptUint64 : Json → Except GoErr (Option Nat)
  | Json.null => Except.ok none
  | Json.num n => (goUint64 n).map some
  | _ => Except.error (GoErr.msg "json: cannot unmarshal value into uint64")

/-- encoding/json marshalling of the v6 `PointStruct` (struct fields in
declaration order, each tagged `omitempty`). -/
def PointStruct.toJson (ps : PointStruct) : Json :=
  Json.obj
    ((match ps.height with
      | none => []
      | some h => [("height", Json.num h)]) ++
      (if ps.id = "" then [] else [("id", Json.str ps.id)]) ++
      (if ps.slot = 0 then [] else [("slot", Json.num (ps.slot : Int))]))

/-- encoding/json unmarshalling of the v6 `PointStruct` from a JSON value.
Absent keys leave the zero value; JSON null into the whole struct is a
no-op. -/
def PointStruct.fromJson : Json → Except GoErr PointStruct
  | Json.obj fields => do
      let height ← match assocLookup fields "height" with
        | none => Except.ok (none : Option Nat)
        | some j => jsonSetOptUint64 j
      let id ← match assocLookup fields "id" with
        | none => Except.ok ""
        | some j => jsonSetString "" j
      let slot ← match assocLookup fields "slot" with
        | none => Except.ok 0
        | some j => jsonSetUint64 0 j
      Except.ok ⟨height, id, slot⟩
  | Json.null => Except.ok ⟨none, "", 0⟩
  | _ => Except.error (GoErr.msg "json: cannot unmarshal value into PointStruct")

/-- v6 `Point.MarshalJSON`: string variant marshals the string, struct
variant marshals the `*PointStruct` (a nil pointer would marshal as null),
any other type tag is an error. -/
def Point.marshalJSON (p : Point) : Except GoErr Json :=
  match p.pointType with
  | PointType.stringType => Except.ok (Json.str p.pointString)
  | PointType.structType =>
      Except.ok (match p.pointStruct with
        | none => Json.null
        | some ps => ps.toJson)
  | PointType.unknown => Except.error (GoErr.msg "unable to unmarshal Point: unknown type")

/-- v6 `Point.UnmarshalJSON` at the parsed-value level: a JSON string (first
byte a quote) yields the string variant, anything else is decoded as a
`PointStruct`. -/
def Point.unmarshalJSON (j : Json) : Except GoErr Point :=
  match j with
  | Json.str s => Except.ok ⟨PointType.stringType, s, none⟩
  | _ =>
      match PointStruct.fromJson j with
      | Except.error e => Except.error (GoErr.wrap "failed to unmarshal Point" e)
      | Except.ok ps => Except.ok ⟨PointType.structType, "", some ps⟩

/-- fxamacker/cbor encoding of `PointStruct` (no cbor tags: Go field names
as text keys, no omitempty, nil pointer encodes as null). -/
def PointStruct.toCbor (ps : PointStruct) : Cbor :=
  Cbor.smap
    [("Height", match ps.height with | none => Cbor.null | some h => Cbor.nat h),
     ("ID", Cbor.str ps.id),
     ("Slot", Cbor.nat ps.slot)]

/-- fxamacker/cbor decoding of `PointStruct`: absent keys leave the zero
value, null clears a pointer field. -/
def PointStruct.fromCbor : Cbor → Except GoErr PointStruct
  | Cbor.smap fields => do
      let height ← match assocLookup fields "Height" with
        | none => Except.ok (none : Option Nat)
        | some Cbor.null => Except.ok none
        | some (Cbor.nat h) => Except.ok (some h)
        | some _ => Except.error (GoErr.msg "cbor: cannot unmarshal value into uint64")
      let id ← match assocLookup fields "ID" with
        | none => Except.ok ""
        | some (Cbor.str s) => Except.ok s
        | some _ => Except.error (GoErr.msg "cbor: cannot unmarshal value into string")
      let slot ← match assocLookup fields "Slot" with
        | none => Except.ok 0
        | some (Cbor.nat n) => Except.ok n
        | some _ => Except.error (GoErr.msg "cbor: cannot unmarshal value into uint64")
      Except.ok ⟨height, id, slot⟩
  | _ => Except.error (GoErr.msg "cbor: cannot unmarshal value into PointStruct")

/-- The internal `pointCBOR` wrapper: `String` under integer key 1 and
`Struct` under integer key 2, both `omitempty`. -/
structure PointCbor where
  str : String
  struct : Option PointStruct
  deriving DecidableEq, Repr

/-- fxamacker/cbor encoding of `pointCBOR` (keyasint, omitempty on both
fields). -/
def PointCbor.toCbor (pc : PointCbor) : Cbor :=
  Cbor.imap
    ((if pc.str = "" then [] else [((1 : Int), Cbor.str pc.str)]) ++
      (match pc.struct with
       | none => []
       | some ps => [((2 : Int), ps.toCbor)]))

/-- fxamacker/cbor decoding of `pointCBOR`. -/
def PointCbor.fromCbor : Cbor → Except GoErr PointCbor
  | Cbor.imap fields => do
      let s ← match assocLookup fields (1 : Int) with
        | none => Except.ok ""
        | some (Cbor.str s) => Except.ok s
        | some _ => Except.error (GoErr.msg "cbor: cannot unmarshal value into string")
      let st ← match assocLookup fields (2 : Int) with
        | none => Except.ok (none : Option PointStruct)
        | some Cbor.null => Except.ok none
        | some c => (PointStruct.fromCbor c).map some
      Except.ok ⟨s, st⟩
  | _ => Except.error (GoErr.msg "cbor: cannot unmarshal value into pointCBOR")

/-- v6 `Point.MarshalCBOR`: wraps the point in `pointCBOR` and encodes it;
unknown type tag is an error. -/
def Point.marshalCBOR (p : Point) : Except GoErr Cbor :=
  match p.pointType with
  | PointType.unknown => Except.error (GoErr.msg "unable to unmarshal Point: unknown type")
  | _ => Except.ok (PointCbor.toCbor ⟨p.pointString, p.pointStruct⟩)

/-- The input to `Point.UnmarshalCBOR`, which inspects the raw bytes before
decoding: an empty slice, the literal bytes "nil", or a well-formed CBOR
encoding of some value (the only outputs `MarshalCBOR` produces). -/
inductive CborBytes where
  | empty
  | nilLiteral
  | value (v : Cbor)

/-- v6 `Point.UnmarshalCBOR`: empty or "nil" input is a no-op on the
receiver; otherwise decode `pointCBOR`, defaulting the type tag to the
string variant and switching to the struct variant when the struct payload
is non-nil. -/
def Point.unmarshalCBOR (prev : Point) : CborBytes → Except GoErr Point
  | CborBytes.empty => Except.ok prev
  | CborBytes.nilLiteral => Except.ok prev
  | CborBytes.value v =>
      match PointCbor.fromCbor v with
      | Except.error e => Except.error (GoErr.wrap "failed to unmarshal Point" e)
      | Except.ok pc =>
          if pc.struct ≠ none then
            Except.ok ⟨PointType.structType, pc.str, pc.struct⟩
          else
            Except.ok ⟨PointType.stringType, pc.str, pc.struct⟩

/-- dynamodbattribute `MarshalMap` of a v6 `PointStruct` (all fields tagged
`omitempty`; uint64 fields marshal as number attributes). -/
def PointStruct.toAttrMap (ps : PointStruct) : List (String × Attr) :=
  (match ps.height with
    | none => []
    | some h => [("height", Attr.N (h : Int))]) ++
    (if ps.id = "" then [] else [("id", Attr.S ps.id)]) ++
    (if ps.slot = 0 then [] else [("slot", Attr.N (ps.slot : Int))])

/-- dynamodbattribute `UnmarshalMap` of a v6 `PointStruct`: absent keys
leave the zero value, NULL attributes clear the field. -/
def PointStruct.fromAttrMap (fields : List (String × Attr)) : Except GoErr PointStruct := do
  let height ← match assocLookup fields "height" with
    | none => Except.ok (none : Option Nat)
    | some Attr.NULLV => Except.ok none
    | some (Attr.N n) => (goUint64 n).map some
    | some _ => Except.error (GoErr.msg "dynamodbattribute: cannot unmarshal into uint64")
  let id ← match assocLookup fields "id" with
    | none => Except.ok ""
    | some Attr.NULLV => Except.ok ""
    | some (Attr.S s) => Except.ok s
    | some _ => Except.error (GoErr.msg "dynamodbattribute: cannot unmarshal into string")
  let slot ← match assocLookup fields "slot" with
    | none => Except.ok 0
    | some (Attr.N n) => goUint64 n
    | some _ => Except.error (GoErr.msg "dynamodbattribute: cannot unmarshal into uint64")
  Except.ok ⟨height, id, slot⟩

/-- v6 `Point.MarshalDynamoDBAttributeValue`: string variant sets `item.S`,
struct variant sets `item.M` to the marshalled map, unknown type tag is an
error. -/
def Point.marshalDynamo (p : Point) : Except GoErr Attr :=
  match p.pointType with
  | PointType.stringType => Except.ok (Attr.S p.pointString)
  | PointType.structType =>
      Except.ok (Attr.M (match p.pointStruct with
        | none => []
        | some ps => ps.toAttrMap))
  | PointType.unknown => Except.error (GoErr.msg "unable to unmarshal Point: unknown type")

/-- v6 `Point.UnmarshalDynamoDBAttributeValue`: nil item is a no-op; a set
`item.S` yields the string variant; a non-empty `item.M` decodes the struct
variant; anything else falls through the switch and leaves the receiver
unchanged. -/
def Point.unmarshalDynamo (prev : Point) (item : Option Attr) : Except GoErr Point :=
  match item with
  | none => Except.ok prev
  | some (Attr.S s) => Except.ok ⟨PointType.stringType, s, none⟩
  | some (Attr.M fields) =>
      if fields.length > 0 then
        match PointStruct.fromAttrMap fields with
        | Except.error e => Except.error (GoErr.wrap "failed to unmarshal point struct" e)
        | Except.ok ps => Except.ok ⟨PointType.structType, "", some ps⟩
      else Except.ok prev
  | some _ => Except.ok prev

@[simp] lemma except_ok_bind {ε α β : Type} (a : α) (f : α → Except ε β) :
    (Except.ok a : Except ε α) >>= f = f a := rfl

@[simp] lemma except_error_bind {ε α β : Type} (e : ε) (f : α → Except ε β) :
    (Except.error e : Except ε α) >>= f = Except.error e := rfl

@[simp] lemma except_map_ok {ε α β : Type} (f : α → β) (a : α) :
    Except.map f (Except.ok a : Except ε α) = Except.ok (f a) := rfl

lemma goUint64_coe (h : Nat) (hh : h < 2 ^ 64) : goUint64 (h : Int) = Except.ok h := by
  unfold goUint64
  rw [if_pos ⟨Int.ofNat_nonneg h, by exact_mod_cast hh⟩]
  simp

lemma goUint64_map_some (h : Nat) (hh : h < 2 ^ 64) :
    (goUint64 (h : Int)).map some = Except.ok (some h) := by
  rw [goUint64_coe h hh]; rfl

lemma pointStructFromJson_toJson (ps : PointStruct) (hr : ps.inRange) :
    PointStruct.fromJson ps.toJson = Except.ok ps := by
  obtain ⟨h, i, s⟩ := ps
  obtain ⟨hh, hs⟩ := hr
  cases h <;> by_cases hi : i = "" <;> by_cases hsl : s = 0 <;>
    simp_all [PointStruct.toJson, PointStruct.fromJson, assocLookup, jsonSetOptUint64,
      jsonSetString, jsonSetUint64, goUint64_coe, goUint64_map_some]

lemma pointStructFromCbor_toCbor (ps : PointStruct) :
    PointStruct.fromCbor ps.toCbor = Except.ok ps := by
  obtain ⟨h, i, s⟩ := ps
  cases h <;> simp [PointStruct.toCbor, PointStruct.fromCbor, assocLookup]

lemma pointStructFromAttrMap_toAttrMap (ps : PointStruct) (hr : ps.inRange) :
    PointStruct.fromAttrMap ps.toAttrMap = Except.ok ps := by
  obtain ⟨h, i, s⟩ := ps
  obtain ⟨hh, hs⟩ := hr
  cases h <;> by_cases hi : i = "" <;> by_cases hsl : s = 0 <;>
    simp_all [PointStruct.toAttrMap, PointStruct.fromAttrMap, assocLookup, goUint64_coe,
      goUint64_map_some]

lemma pointCborFromCbor_toCbor (pc : PointCbor) :
    PointCbor.fromCbor pc.toCbor = Except.ok pc := by
  obtain ⟨s, st⟩ := pc
  cases st with
  | none =>
      by_cases hs : s = "" <;>
        simp_all [PointCbor.toCbor, PointCbor.fromCbor, assocLookup]
  | some ps =>
      obtain ⟨h, i, sl⟩ := ps
      cases h <;> by_cases hs : s = "" <;>
        simp_all [PointCbor.toCbor, PointCbor.fromCbor, PointStruct.toCbor,
          PointStruct.fromCbor, assocLookup]

lemma toAttrMap_eq_nil_iff (ps : PointStruct) :
    ps.toAttrMap = [] ↔ ps = ⟨none, "", 0⟩ := by
  obtain ⟨h, i, s⟩ := ps
  cases h <;> by_cases hi : i = "" <;> by_cases hsl : s = 0 <;>
    simp_all [PointStruct.toAttrMap]

/-- C1 (amended): for every valid `Point`, deserializing the serialization
is the identity in the human-readable JSON format and in the compact binary
CBOR format; in the DynamoDB attribute format it is the identity for every
valid point except the struct point with no height, empty hash and slot 0,
whose attribute encoding is an empty map that the decoder ignores. -/
theorem c1_point_roundtrip (p : Point) (hv : p.valid) :
    (p.marshalJSON >>= Point.unmarshalJSON) = Except.ok p ∧
    (∀ prev, (p.marshalCBOR >>= fun v => Point.unmarshalCBOR prev (CborBytes.value v)) =
      Except.ok p) ∧
    (p ≠ PointStruct.toPoint ⟨none, "", 0⟩ →
      ∀ prev, (p.marshalDynamo >>= fun a => Point.unmarshalDynamo prev (some a)) =
        Except.ok p) := by
  obtain ⟨pt, s, st⟩ := p
  rcases hv with ⟨ht, hps⟩ | ⟨ht, hstr, hne, hr⟩
  · simp only at ht hps
    subst ht hps
    refine ⟨rfl, fun prev => ?_, fun _ prev => rfl⟩
    simp [Point.marshalCBOR, Point.unmarshalCBOR,
      pointCborFromCbor_toCbor (⟨s, none⟩ : PointCbor)]
  · simp only at ht hstr
    subst ht hstr
    obtain ⟨ps, rfl⟩ : ∃ ps, st = some ps := Option.ne_none_iff_exists'.mp hne
    simp only [Option.getD_some] at hr
    refine ⟨?_, fun prev => ?_, fun hnz prev => ?_⟩
    · cases htj : ps.toJson with
      | obj L =>
          have h1 : PointStruct.fromJson (Json.obj L) = Except.ok ps := by
            rw [← htj]; exact pointStructFromJson_toJson ps hr
          simp [Point.marshalJSON, Point.unmarshalJSON, htj, h1]
      | str s => simp [PointStruct.toJson] at htj
      | num n => simp [PointStruct.toJson] at htj
      | bool b => simp [PointStruct.toJson] at htj
      | null => simp [PointStruct.toJson] at htj
      | arr xs => simp [PointStruct.toJson] at htj
    · simp [Point.marshalCBOR, Point.unmarshalCBOR,
        pointCborFromCbor_toCbor (⟨"", some ps⟩ : PointCbor)]
    · have hmap : ps.toAttrMap ≠ [] := by
        rw [ne_eq, toAttrMap_eq_nil_iff]
        intro hcontra
        exact hnz (by rw [hcontra]; rfl)
      simp [Point.marshalDynamo, Point.unmarshalDynamo, List.length_pos.mpr hmap,
        pointStructFromAttrMap_toAttrMap ps hr]

/-- C1 (witness): the amended round-trip theorem evaluated at the struct
point with height 5, hash "ab" and slot 7, with the zero `Point` as the
decoder's receiver. -/
theorem c1_point_roundtrip_witness :
    ((PointStruct.toPoint ⟨some 5, "ab", 7⟩).marshalJSON >>= Point.unmarshalJSON) =
      Except.ok (PointStruct.toPoint ⟨some 5, "ab", 7⟩) ∧
    ((PointStruct.toPoint ⟨some 5, "ab", 7⟩).marshalCBOR >>= fun v =>
      Point.unmarshalCBOR Point.zero (CborBytes.value v)) =
      Except.ok (PointStruct.toPoint ⟨some 5, "ab", 7⟩) ∧
    ((PointStruct.toPoint ⟨some 5, "ab", 7⟩).marshalDynamo >>= fun a =>
      Point.unmarshalDynamo Point.zero (some a)) =
      Except.ok (PointStruct.toPoint ⟨some 5, "ab", 7⟩) := by
  have h := c1_point_roundtrip (PointStruct.toPoint ⟨some 5, "ab", 7⟩) (by decide)
  exact ⟨h.1, h.2.1 Point.zero, h.2.2 (by decide) Point.zero⟩

/-- C1 (counterexample): the all-zero struct point is a valid point, but its
DynamoDB attribute serialization is the empty map, which the deserializer
treats as a no-op: decoding into a fresh (zero) `Point` does not yield the
original point back, so the attribute-format round-trip law fails. -/
theorem c1_point_roundtrip_counterexample :
    (PointStruct.toPoint ⟨none, "", 0⟩).valid ∧
    Point.marshalDynamo (PointStruct.toPoint ⟨none, "", 0⟩) = Except.ok (Attr.M []) ∧
    Point.unmarshalDynamo Point.zero (some (Attr.M [])) = Except.ok Point.zero ∧
    Point.zero ≠ PointStruct.toPoint ⟨none, "", 0⟩ :=
  ⟨by decide, rfl, rfl, by decide⟩

/-- C6: `Points.Less` realizes the total order of the spec: struct points
order by slot descending (the greater slot sorts first), a struct point
always sorts ahead of a string marker, a string marker never sorts ahead of
a struct point, and two string markers compare lexically (in descending
lexicographic order, consistent with slot-descending). -/
theorem c6_points_less_total_order :
    (∀ a b : PointStruct, Points.less a.toPoint b.toPoint = true ↔ b.slot < a.slot) ∧
    (∀ (a : PointStruct) (s : String), Points.less a.toPoint (PointString.toPoint s) = true) ∧
    (∀ (s : String) (a : PointStruct), Points.less (PointString.toPoint s) a.toPoint = false) ∧
    (∀ s t : String, Points.less (PointString.toPoint s) (PointString.toPoint t) = true ↔ t < s) := by
  refine ⟨fun a b => ?_, fun a s => ?_, fun s a => ?_, fun s t => ?_⟩ <;>
    simp [Points.less, PointStruct.toPoint, PointString.toPoint, GT.gt]

/-- Skip JSON whitespace. -/
def skipWs : List Char → List Char
  | [] => []
  | c :: rest =>
      if c = ' ' ∨ c = '\n' ∨ c = '\t' ∨ c = '\r' then skipWs rest else c :: rest

/-- Parse the remainder of a JSON string literal (after the opening quote),
accumulating characters until the closing quote; supports the escapes the
embedded code can produce. -/
def parseStringRest : Nat → List Char → List Char → Option (String × List Char)
  | 0, _, _ => none
  | _ + 1, [], _ => none
  | f + 1, c :: rest, acc =>
      if c = '"' then some (⟨acc.reverse⟩, rest)
      else if c = '\\' then
        match rest with
        | [] => none
        | e :: rest2 =>
            if e = '"' then parseStringRest f rest2 ('"' :: acc)
            else if e = '\\' then parseStringRest f rest2 ('\\' :: acc)
            else if e = 'n' then parseStringRest f rest2 ('\n' :: acc)
            else if e = 't' then parseStringRest f rest2 ('\t' :: acc)
            else if e = 'r' then parseStringRest f rest2 ('\r' :: acc)
            else none
      else parseStringRest f rest (c :: acc)

/-- Parse a run of decimal digits into a natural number. -/
def parseDigits : List Char → Nat → Bool → Option (Nat × List Char)
  | [], acc, seen => if seen then some (acc, []) else none
  | c :: rest, acc, seen =>
      if c.isDigit then parseDigits rest (acc * 10 + (c.toNat - 48)) true
      else if seen then some (acc, c :: rest) else none

mutual

/-- A JSON text parser (the value layer of encoding/json), fuel-based for
termination; integral numbers only, which covers every document the
embedded encoders emit. -/
def parseValue : Nat → List Char → Option (Json × List Char)
  | 0, _ => none
  | _ + 1, [] => none
  | f + 1, c :: rest =>
      if c = '"' then
        match parseStringRest (f + 1) rest [] with
        | some (s, rest2) => some (Json.str s, rest2)
        | none => none
      else if c = Char.ofNat 123 then
        parseObjMembers f (skipWs rest) []
      else if c = '[' then
        parseArrElems f (skipWs rest) []
      else if c = 't' then
        match rest with
        | 'r' :: 'u' :: 'e' :: rest2 => some (Json.bool true, rest2)
        | _ => none
      else if c = 'f' then
        match rest with
        | 'a' :: 'l' :: 's' :: 'e' :: rest2 => some (Json.bool false, rest2)
        | _ => none
      else if c = 'n' then
        match rest with
        | 'u' :: 'l' :: 'l' :: rest2 => some (Json.null, rest2)
        | _ => none
      else if c = '-' then
        match parseDigits rest 0 false with
        | some (n, rest2) => some (Json.num (-(n : Int)), rest2)
        | none => none
      else
        match parseDigits (c :: rest) 0 false with
        | some (n, rest2) => some (Json.num (n : Int), rest2)
        | none => none

/-- Parse the members of a JSON object after the opening brace. -/
def parseObjMembers (fuel : Nat) (cs : List Char) (acc : List (String × Json)) :
    Option (Json × List Char) :=
  match fuel, cs with
  | 0, _ => none
  | _ + 1, [] => none
  | f + 1, c :: rest =>
      if c = Char.ofNat 125 ∧ acc.isEmpty then some (Json.obj [], rest)
      else if c = '"' then
        match parseStringRest (f + 1) rest [] with
        | none => none
        | some (key, rest2) =>
            match skipWs rest2 with
            | ':' :: rest3 =>
                match parseValue f (skipWs rest3) with
                | none => none
                | some (v, rest4) =>
                    match skipWs rest4 with
                    | ',' :: rest5 => parseObjMembers f (skipWs rest5) ((key, v) :: acc)
                    | d :: rest5 =>
                        if d = Char.ofNat 125 then
                          some (Json.obj ((key, v) :: acc).reverse, rest5)
                        else none
                    | [] => none
            | _ => none
      else none

/-- Parse the elements of a JSON array after the opening bracket. -/
def parseArrElems (fuel : Nat) (cs : List Char) (acc : List Json) :
    Option (Json × List Char) :=
  match fuel, cs with
  | 0, _ => none
  | _ + 1, [] => none
  | f + 1, c :: rest =>
      if c = ']' ∧ acc.isEmpty then some (Json.arr [], rest)
      else
        match parseValue f (c :: rest) with
        | none => none
        | some (v, rest2) =>
            match skipWs rest2 with
            | ',' :: rest3 => parseArrElems f (skipWs rest3) (v :: acc)
            | ']' :: rest3 => some (Json.arr (v :: acc).reverse, rest3)
            | _ => none

end

/-- Parse a complete JSON document: one value surrounded by whitespace. -/
def jsonParse (s : String) : Option Json :=
  match parseValue (s.length + 1) (skipWs s.data) with
  | some (j, rest) => if skipWs rest = [] then some j else none
  | none => none

/-- Escape a character for inclusion in a JSON string literal. -/
def escapeChar (c : Char) : List Char :=
  if c = '"' then ['\\', '"']
  else if c = '\\' then ['\\', '\\']
  else if c = '\n' then ['\\', 'n']
  else if c = '\t' then ['\\', 't']
  else if c = '\r' then ['\\', 'r']
  else [c]

/-- Serialize a string as a JSON string literal. -/
def serializeString (s : String) : String :=
  ⟨'"' :: (s.data.map escapeChar).flatten ++ ['"']⟩

mutual

/-- Serialize a JSON value the way Go's encoding/json does (no added
whitespace; object fields in the order listed, which for Go maps is the
sorted key order the callers establish). -/
def jsonSerialize : Json → String
  | Json.str s => serializeString s
  | Json.num n => toString n
  | Json.bool b => if b then "true" else "false"
  | Json.null => "null"
  | Json.arr xs => "[" ++ jsonSerializeElems xs ++ "]"
  | Json.obj fs =>
      ⟨[Char.ofNat 123]⟩ ++ jsonSerializeMembers fs ++ ⟨[Char.ofNat 125]⟩

/-- Comma-separated serialization of array elements. -/
def jsonSerializeElems : List Json → String
  | [] => ""
  | [x] => jsonSerialize x
  | x :: y :: rest => jsonSerialize x ++ "," ++ jsonSerializeElems (y :: rest)

/-- Comma-separated serialization of object members. -/
def jsonSerializeMembers : List (String × Json) → String
  | [] => ""
  | [(k, v)] => serializeString k ++ ":" ++ jsonSerialize v
  | (k, v) :: m :: rest =>
      serializeString k ++ ":" ++ jsonSerialize v ++ "," ++ jsonSerializeMembers (m :: rest)

end

/-- v6 `Point.UnmarshalJSON` at the raw-byte level: the Go function indexes
`data[0]` before checking the length, so the empty input panics (modelled as
`none`); otherwise it dispatches on whether the first byte is a quote and
delegates to `json.Unmarshal` (modelled by `jsonParse` composed with the
field decoders), returning `some` of an ordinary success or error. -/
def Point.unmarshalJSONBytes (data : String) : Option (Except GoErr Point) :=
  match data.data with
  | [] => none
  | c :: _ =>
      if c = '"' then
        some (match jsonParse data with
          | some (Json.str s) => Except.ok ⟨PointType.stringType, s, none⟩
          | _ => Except.error (GoErr.msg "failed to unmarshal Point: invalid JSON string"))
      else
        some (match jsonParse data with
          | some j =>
              (match PointStruct.fromJson j with
               | Except.ok ps => Except.ok ⟨PointType.structType, "", some ps⟩
               | Except.error e => Except.error (GoErr.wrap "failed to unmarshal Point" e))
          | none => Except.error (GoErr.msg "failed to unmarshal Point: invalid JSON"))

/-- Marshal a list of points to JSON values, failing on the first error
(the element-wise behaviour of `json.Marshal` on a slice of Points). -/
def marshalPoints : List Point → Except GoErr (List Json)
  | [] => Except.ok []
  | p :: rest => do
      let j ← p.marshalJSON
      let js ← marshalPoints rest
      Except.ok (j :: js)

/-- Modelled from the spec: `getInit` (present in the repository only
through its test) builds the initial findIntersection request.  Per spec
section 4.5 it loads checkpoints from the Store, falls back to the
caller-supplied explicit points when the Store yields none, and to Origin
when both are empty; the request envelope is the JSON-RPC 2.0 object of
spec section 6 with the fixed correlation id \x7b"step":"INIT"\x7d, whose
keys Go's json.Marshal emits in sorted order. -/
def getInit (storePoints : List Point) (callerPoints : List Point) : Except GoErr String := do
  let pp := if storePoints.isEmpty then callerPoints else storePoints
  let pp := if pp.isEmpty then [Origin] else pp
  let pts ← marshalPoints pp
  Except.ok (jsonSerialize (Json.obj
    [("id", Json.obj [("step", Json.str "INIT")]),
     ("jsonrpc", Json.str "2.0"),
     ("method", Json.str "findIntersection"),
     ("params", Json.obj [("points", Json.arr pts)])]))

/-- C7: building the initial findIntersection request from the single
explicit point with slot 456 and hash "hash" (empty Store) produces exactly
the byte string of the "from points" test scenario. -/
theorem c7_getInit_from_points :
    getInit [] [PointStruct.toPoint ⟨none, "hash", 456⟩] =
      Except.ok "\x7b\"id\":\x7b\"step\":\"INIT\"\x7d,\"jsonrpc\":\"2.0\",\"method\":\"findIntersection\",\"params\":\x7b\"points\":[\x7b\"id\":\"hash\",\"slot\":456\x7d]\x7d\x7d" := by
  rfl

/-- C8: when the Store yields a checkpoint at slot 456 and the caller also
supplies an explicit point at slot 654, the request is built from the
Store's point: the produced byte string carries slot 456 and differs from
the request that the caller-supplied point alone would produce. -/
theorem c8_getInit_store_precedence :
    getInit [PointStruct.toPoint ⟨none, "hash", 456⟩] [PointStruct.toPoint ⟨none, "hash", 654⟩] =
      Except.ok "\x7b\"id\":\x7b\"step\":\"INIT\"\x7d,\"jsonrpc\":\"2.0\",\"method\":\"findIntersection\",\"params\":\x7b\"points\":[\x7b\"id\":\"hash\",\"slot\":456\x7d]\x7d\x7d" ∧
    getInit [] [PointStruct.toPoint ⟨none, "hash", 654⟩] =
      Except.ok "\x7b\"id\":\x7b\"step\":\"INIT\"\x7d,\"jsonrpc\":\"2.0\",\"method\":\"findIntersection\",\"params\":\x7b\"points\":[\x7b\"id\":\"hash\",\"slot\":654\x7d]\x7d\x7d" ∧
    ("\x7b\"id\":\x7b\"step\":\"INIT\"\x7d,\"jsonrpc\":\"2.0\",\"method\":\"findIntersection\",\"params\":\x7b\"points\":[\x7b\"id\":\"hash\",\"slot\":456\x7d]\x7d\x7d" : String) ≠
      "\x7b\"id\":\x7b\"step\":\"INIT\"\x7d,\"jsonrpc\":\"2.0\",\"method\":\"findIntersection\",\"params\":\x7b\"points\":[\x7b\"id\":\"hash\",\"slot\":654\x7d]\x7d\x7d" := by
  refine ⟨rfl, rfl, by decide⟩

/-- C10: `Point.UnmarshalJSON` is not total at the byte level: the empty
input indexes `data[0]` out of bounds and panics (no result at all), while
every non-empty input produces an ordinary result, either setting the point
or returning an error. -/
theorem c10_unmarshalJSON_empty_panics :
    Point.unmarshalJSONBytes "" = none ∧
    ∀ data : String, data ≠ "" → (Point.unmarshalJSONBytes data).isSome = true := by
  refine ⟨rfl, fun data hne => ?_⟩
  obtain ⟨cs⟩ := data
  cases cs with
  | nil => exact absurd rfl hne
  | cons c rest =>
      simp only [Point.unmarshalJSONBytes]
      split <;> simp

/-- C10 (witness): the dispatch evaluated at the non-empty input "x". -/
theorem c10_unmarshalJSON_witness :
    ("x" : String) ≠ "" ∧ (Point.unmarshalJSONBytes "x").isSome = true :=
  ⟨by decide, c10_unmarshalJSON_empty_panics.2 "x" (by decide)⟩

def FindIntersectionMethod : String := "findIntersection"

def NextBlockMethod : String := "nextBlock"

def FindIntersectMethod : String := "FindIntersect"

def RequestNextMethod : String := "RequestNext"

def RollForwardString : String := "forward"

def RollBackwardString : String := "backward"

/-- Go range check for JSON numbers stored into a `uint32` field. -/
def goUint32 (n : Int) : Except GoErr Nat :=
  if 0 ≤ n ∧ n < 2 ^ 32 then Except.ok n.toNat
  else Except.error (GoErr.msg "number out of range for uint32")

/-- v6 `ResultError`: `Code uint32`, `Message string`, `Data` and `ID` raw
JSON. -/
structure ResultError where
  code : Nat
  message : String
  data : Option Json
  id : Option Json

/-- encoding/json unmarshalling of `ResultError` (raw-message fields keep
the JSON value as-is). -/
def ResultError.fromJson : Json → Except GoErr ResultError
  | Json.obj fields => do
      let code ← match assocLookup fields "code" with
        | none => Except.ok 0
        | some Json.null => Except.ok 0
        | some (Json.num n) => goUint32 n
        | some _ => Except.error (GoErr.msg "json: cannot unmarshal value into uint32")
      let message ← match assocLookup fields "message" with
        | none => Except.ok ""
        | some j => jsonSetString "" j
      Except.ok ⟨code, message, assocLookup fields "data", assocLookup fields "id"⟩
  | Json.null => Except.ok ⟨0, "", none, none⟩
  | _ => Except.error (GoErr.msg "json: cannot unmarshal value into ResultError")

/-- v6 `Block`, restricted to the scalar identity fields; the remaining
fields (nonce, size, transactions, protocol, issuer) decode by the same
mechanical per-field rules and are not read by any operation the claims
mention. -/
structure Block where
  type : String
  era : String
  id : String
  ancestor : String
  height : Nat
  slot : Nat

/-- encoding/json unmarshalling of the v6 `Block`'s embedded fields. -/
def Block.fromJson : Json → Except GoErr Block
  | Json.obj fields => do
      let ty ← match assocLookup fields "type" with
        | none => Except.ok ""
        | some j => jsonSetString "" j
      let era ← match assocLookup fields "era" with
        | none => Except.ok ""
        | some j => jsonSetString "" j
      let id ← match assocLookup fields "id" with
        | none => Except.ok ""
        | some j => jsonSetString "" j
      let ancestor ← match assocLookup fields "ancestor" with
        | none => Except.ok ""
        | some j => jsonSetString "" j
      let height ← match assocLookup fields "height" with
        | none => Except.ok 0
        | some j => jsonSetUint64 0 j
      let slot ← match assocLookup fields "slot" with
        | none => Except.ok 0
        | some j => jsonSetUint64 0 j
      Except.ok ⟨ty, era, id, ancestor, height, slot⟩
  | Json.null => Except.ok ⟨"", "", "", "", 0, 0⟩
  | _ => Except.error (GoErr.msg "json: cannot unmarshal value into Block")

/-- Decode an optional pointer field whose element has a custom decoder
(JSON null sets the pointer to nil, an absent key leaves it nil). -/
def jsonSetOpt {α : Type} (dec : Json → Except GoErr α) :
    Option Json → Except GoErr (Option α)
  | none => Except.ok none
  | some Json.null => Except.ok none
  | some j => (dec j).map some

/-- v6 `ResultFindIntersectionPraos`. -/
structure ResultFindIntersectionPraos where
  intersection : Option Point
  tip : Option PointStruct
  error : Option ResultError
  id : Option Json

/-- encoding/json unmarshalling of `ResultFindIntersectionPraos`. -/
def ResultFindIntersectionPraos.fromJson : Json → Except GoErr ResultFindIntersectionPraos
  | Json.obj fields => do
      let i ← jsonSetOpt Point.unmarshalJSON (assocLookup fields "intersection")
      let t ← jsonSetOpt PointStruct.fromJson (assocLookup fields "tip")
      let e ← jsonSetOpt ResultError.fromJson (assocLookup fields "error")
      Except.ok ⟨i, t, e, assocLookup fields "id"⟩
  | Json.null => Except.ok ⟨none, none, none, none⟩
  | _ => Except.error (GoErr.msg "json: cannot unmarshal value into ResultFindIntersectionPraos")

/-- v6 `ResultNextBlockPraos`. -/
structure ResultNextBlockPraos where
  direction : String
  tip : Option PointStruct
  block : Option Block
  point : Option Point

/-- encoding/json unmarshalling of `ResultNextBlockPraos`. -/
def ResultNextBlockPraos.fromJson : Json → Except GoErr ResultNextBlockPraos
  | Json.obj fields => do
      let d ← match assocLookup fields "direction" with
        | none => Except.ok ""
        | some j => jsonSetString "" j
      let t ← jsonSetOpt PointStruct.fromJson (assocLookup fields "tip")
      let b ← jsonSetOpt Block.fromJson (assocLookup fields "block")
      let p ← jsonSetOpt Point.unmarshalJSON (assocLookup fields "point")
      Except.ok ⟨d, t, b, p⟩
  | Json.null => Except.ok ⟨"", none, none, none⟩
  | _ => Except.error (GoErr.msg "json: cannot unmarshal value into ResultNextBlockPraos")

/-- The dynamic `Result interface\x7b\x7d` field of `ResponsePraos`: after a
successful decode it holds one of the two concrete result shapes. -/
inductive PraosResult where
  | findIntersection (r : ResultFindIntersectionPraos)
  | nextBlock (r : ResultNextBlockPraos)

/-- v6 `ResponsePraos`. -/
structure ResponsePraos where
  jsonrpc : String
  method : String
  result : Option PraosResult
  error : Option ResultError
  id : Option Json

/-- The anonymous struct `m` that `ResponsePraos.UnmarshalJSON` first
decodes the payload into: the envelope fields, with `result` and `error`
kept as raw messages (`none` = key absent). -/
structure RawResponse where
  jsonrpc : String
  method : String
  id : Option Json
  result : Option Json
  error : Option Json

/-- v6 `ResponsePraos.UnmarshalJSON` after the initial envelope decode: if
the error field is present decode it and stop; otherwise dispatch on the
method name, accepting each generation's name for the two operations and
failing on anything else (`json.Unmarshal` of an absent raw result errors). -/
def ResponsePraos.unmarshalJSON (m : RawResponse) : Except GoErr ResponsePraos :=
  if m.error.isSome then
    match ResultError.fromJson (m.error.getD Json.null) with
    | Except.error e => Except.error e
    | Except.ok re => Except.ok ⟨m.jsonrpc, "", none, some re, m.id⟩
  else if m.method = FindIntersectionMethod ∨ m.method = FindIntersectMethod then
    match m.result with
    | none => Except.error (GoErr.msg "unexpected end of JSON input")
    | some rj =>
        match ResultFindIntersectionPraos.fromJson rj with
        | Except.error e => Except.error e
        | Except.ok r =>
            Except.ok ⟨m.jsonrpc, FindIntersectionMethod,
              some (PraosResult.findIntersection r), none, m.id⟩
  else if m.method = NextBlockMethod ∨ m.method = RequestNextMethod then
    match m.result with
    | none => Except.error (GoErr.msg "unexpected end of JSON input")
    | some rj =>
        match ResultNextBlockPraos.fromJson rj with
        | Except.error e => Except.error e
        | Except.ok r =>
            Except.ok ⟨m.jsonrpc, NextBlockMethod,
              some (PraosResult.nextBlock r), none, m.id⟩
  else
    Except.error (GoErr.msg "unknown method")

/-- C5: decoding a response envelope with no error field and a method name
that is none of the four known names of either generation fails with the
unknown-method error; it is never silently decoded into an empty result. -/
theorem c5_unknown_method (m : RawResponse)
    (herr : m.error = none)
    (hm : m.method ≠ FindIntersectionMethod ∧ m.method ≠ FindIntersectMethod ∧
      m.method ≠ NextBlockMethod ∧ m.method ≠ RequestNextMethod) :
    ResponsePraos.unmarshalJSON m = Except.error (GoErr.msg "unknown method") := by
  obtain ⟨h1, h2, h3, h4⟩ := hm
  simp [ResponsePraos.unmarshalJSON, herr, h1, h2, h3, h4]

/-- C5 (witness): the unknown-method error at the concrete envelope with
method "bogus" and no error field. -/
theorem c5_unknown_method_witness :
    ResponsePraos.unmarshalJSON ⟨"2.0", "bogus", none, some (Json.obj []), none⟩ =
      Except.error (GoErr.msg "unknown method") :=
  c5_unknown_method ⟨"2.0", "bogus", none, some (Json.obj []), none⟩ rfl
    ⟨by decide, by decide, by decide, by decide⟩

/-- Modelled from the spec: the legacy (v5) struct point of the chainsync/v5
package, whose definition is not under src/; field names `BlockNo`, `Hash`,
`Slot` follow the v5 chainsync source included in src/ (JSON keys blockNo,
hash, slot, all omitempty). -/
structure PointStructV5 where
  blockNo : Nat
  hash : String
  slot : Nat
  deriving DecidableEq, Repr

/-- Modelled from the spec: the legacy Point, the same string/struct sum as
the v6 Point (spec section 3). -/
inductive PointV5 where
  | str (s : String)
  | struct (ps : PointStructV5)
  deriving DecidableEq, Repr

/-- The legacy struct point's numeric fields fit in Go's `uint64`. -/
def PointStructV5.inRange (ps : PointStructV5) : Prop :=
  ps.blockNo < 2 ^ 64 ∧ ps.slot < 2 ^ 64

/-- A legacy point whose numeric content fits in Go's `uint64`. -/
def PointV5.wf : PointV5 → Prop
  | PointV5.str _ => True
  | PointV5.struct ps => ps.inRange

def PointStructV5.toJson (ps : PointStructV5) : Json :=
  Json.obj
    ((if ps.blockNo = 0 then [] else [("blockNo", Json.num (ps.blockNo : Int))]) ++
      (if ps.hash = "" then [] else [("hash", Json.str ps.hash)]) ++
      (if ps.slot = 0 then [] else [("slot", Json.num (ps.slot : Int))]))

def PointStructV5.fromJson : Json → Except GoErr PointStructV5
  | Json.obj fields => do
      let blockNo ← match assocLookup fields "blockNo" with
        | none => Except.ok 0
        | some j => jsonSetUint64 0 j
      let hash ← match assocLookup fields "hash" with
        | none => Except.ok ""
        | some j => jsonSetString "" j
      let slot ← match assocLookup fields "slot" with
        | none => Except.ok 0
        | some j => jsonSetUint64 0 j
      Except.ok ⟨blockNo, hash, slot⟩
  | Json.null => Except.ok ⟨0, "", 0⟩
  | _ => Except.error (GoErr.msg "json: cannot unmarshal value into PointStructV5")

def PointV5.toJson : PointV5 → Json
  | PointV5.str s => Json.str s
  | PointV5.struct ps => ps.toJson

def PointV5.fromJson (j : Json) : Except GoErr PointV5 :=
  match j with
  | Json.str s => Except.ok (PointV5.str s)
  | _ => (PointStructV5.fromJson j).map PointV5.struct

/-- Modelled from the spec: the legacy IntersectionFound wrapper
(spec section 6: `\x7bIntersectionFound:\x7bpoint,tip\x7d\x7d`); the source's
MarshalJSON populates its `Tip` through a `*PointStructV5`. -/
structure IntersectionFoundV5 where
  point : PointV5
  tip : Option PointStructV5
  deriving DecidableEq, Repr

/-- Modelled from the spec: the legacy IntersectionNotFound wrapper. -/
structure IntersectionNotFoundV5 where
  tip : Option PointStructV5
  deriving DecidableEq, Repr

/-- Modelled from the spec: the legacy FindIntersection result, one
optional wrapper per outcome. -/
structure ResultFindIntersectionV5 where
  intersectionFound : Option IntersectionFoundV5
  intersectionNotFound : Option IntersectionNotFoundV5
  deriving DecidableEq, Repr

def IntersectionFoundV5.toJson (f : IntersectionFoundV5) : Json :=
  Json.obj
    ([("point", f.point.toJson)] ++
      (match f.tip with
       | none => []
       | some t => [("tip", t.toJson)]))

def IntersectionFoundV5.fromJson : Json → Except GoErr IntersectionFoundV5
  | Json.obj fields => do
      let p ← match assocLookup fields "point" with
        | none => Except.ok (PointV5.str "")
        | some j => PointV5.fromJson j
      let t ← jsonSetOpt PointStructV5.fromJson (assocLookup fields "tip")
      Except.ok ⟨p, t⟩
  | Json.null => Except.ok ⟨PointV5.str "", none⟩
  | _ => Except.error (GoErr.msg "json: cannot unmarshal value into IntersectionFoundV5")

def IntersectionNotFoundV5.toJson (nf : IntersectionNotFoundV5) : Json :=
  Json.obj
    (match nf.tip with
     | none => []
     | some t => [("tip", t.toJson)])

def IntersectionNotFoundV5.fromJson : Json → Except GoErr IntersectionNotFoundV5
  | Json.obj fields => do
      let t ← jsonSetOpt PointStructV5.fromJson (assocLookup fields "tip")
      Except.ok ⟨t⟩
  | Json.null => Except.ok ⟨none⟩
  | _ => Except.error (GoErr.msg "json: cannot unmarshal value into IntersectionNotFoundV5")

def ResultFindIntersectionV5.toJson (v : ResultFindIntersectionV5) : Json :=
  Json.obj
    ((match v.intersectionFound with
      | none => []
      | some f => [("IntersectionFound", f.toJson)]) ++
      (match v.intersectionNotFound with
       | none => []
       | some nf => [("IntersectionNotFound", nf.toJson)]))

def ResultFindIntersectionV5.fromJson : Json → Except GoErr ResultFindIntersectionV5
  | Json.obj fields => do
      let f ← jsonSetOpt IntersectionFoundV5.fromJson (assocLookup fields "IntersectionFound")
      let nf ← jsonSetOpt IntersectionNotFoundV5.fromJson
        (assocLookup fields "IntersectionNotFound")
      Except.ok ⟨f, nf⟩
  | Json.null => Except.ok ⟨none, none⟩
  | _ => Except.error (GoErr.msg "json: cannot unmarshal value into ResultFindIntersectionV5")

/-- Modelled from the spec: v5→v6 point-struct conversion (rename hash→id,
lift blockNo into the optional height). -/
def PointStructV5.toV6 (ps : PointStructV5) : PointStruct :=
  ⟨some ps.blockNo, ps.hash, ps.slot⟩

/-- Modelled from the spec: v5→v6 point conversion. -/
def PointV5.toV6 : PointV5 → Point
  | PointV5.str s => PointString.toPoint s
  | PointV5.struct ps => PointStruct.toPoint ps.toV6

/-- Modelled from the spec: `v5.PointFromV6`, the reverse point conversion
used by the source's write path. -/
def PointFromV6 (p : Point) : PointV5 :=
  match p.pointType with
  | PointType.structType =>
      PointV5.struct
        ⟨(p.pointStruct.getD ⟨none, "", 0⟩).height.getD 0,
          (p.pointStruct.getD ⟨none, "", 0⟩).id,
          (p.pointStruct.getD ⟨none, "", 0⟩).slot⟩
  | _ => PointV5.str p.pointString

/-- Modelled from the spec: `ResultFindIntersectionV5.ConvertToV6`
(spec section 4.3): restructure the found/not-found wrappers into the v6
intersection/tip fields. -/
def ResultFindIntersectionV5.convertToV6 (v : ResultFindIntersectionV5) :
    ResultFindIntersectionPraos :=
  match v.intersectionFound with
  | some f => ⟨some f.point.toV6, f.tip.map PointStructV5.toV6, none, none⟩
  | none =>
      match v.intersectionNotFound with
      | some nf => ⟨none, nf.tip.map PointStructV5.toV6, none, none⟩
      | none => ⟨none, none, none, none⟩

/-- `CompatibleResultFindIntersection` is defined type-identical to the v6
result. -/
abbrev CompatibleResultFindIntersection := ResultFindIntersectionPraos

/-- The fall-back half of `CompatibleResultFindIntersection.UnmarshalJSON`:
the v5 attempt (accept when either wrapper is populated, converting to v6)
and the error path, which wraps only the v5 attempt's error (`err` has been
reassigned by the second `json.Unmarshal`; it is nil when the v5 decode
succeeded but its wrappers were empty). -/
def CompatibleResultFindIntersection.v5Attempt (data : Json) :
    Except GoErr CompatibleResultFindIntersection :=
  match ResultFindIntersectionV5.fromJson data with
  | Except.ok r5 =>
      if r5.intersectionFound.isSome ∨ r5.intersectionNotFound.isSome then
        Except.ok r5.convertToV6
      else
        Except.error (GoErr.wrapNil "unable to parse as either v5 or v6 FindIntersection")
  | Except.error e =>
      Except.error (GoErr.wrap "unable to parse as either v5 or v6 FindIntersection" e)

/-- `CompatibleResultFindIntersection.UnmarshalJSON`: attempt v6 and accept
when `Intersection` or `Error` is populated; otherwise fall back to v5. -/
def CompatibleResultFindIntersection.unmarshalJSON (data : Json) :
    Except GoErr CompatibleResultFindIntersection :=
  match ResultFindIntersectionPraos.fromJson data with
  | Except.ok r =>
      if r.intersection.isSome ∨ r.error.isSome then Except.ok r
      else CompatibleResultFindIntersection.v5Attempt data
  | Except.error _ => CompatibleResultFindIntersection.v5Attempt data

/-- `CompatibleResultFindIntersection.MarshalJSON`: always serialize in the
legacy schema; the tip is rebuilt as a value struct (zero when the v6 tip
is absent) and always attached through a non-nil pointer. -/
def CompatibleResultFindIntersection.marshalJSON (c : CompatibleResultFindIntersection) :
    Json :=
  let tip : PointStructV5 :=
    match c.tip with
    | none => ⟨0, "", 0⟩
    | some t => ⟨t.height.getD 0, t.id, t.slot⟩
  let five : ResultFindIntersectionV5 :=
    match c.intersection with
    | some i => ⟨some ⟨PointFromV6 i, some tip⟩, none⟩
    | none => ⟨none, some ⟨some tip⟩⟩
  five.toJson

/-- Modelled from the spec: the legacy block, restricted to the fields
representable in both generations (the block's own derivable point: height,
hash, slot — spec section 3); the era-specific payload has no v6
counterpart relevant to the embedded claims. -/
structure BlockV5 where
  blockNo : Nat
  hash : String
  slot : Nat
  deriving DecidableEq, Repr

/-- The legacy block's numeric fields fit in Go's `uint64`. -/
def BlockV5.inRange (b : BlockV5) : Prop :=
  b.blockNo < 2 ^ 64 ∧ b.slot < 2 ^ 64

def BlockV5.toJson (b : BlockV5) : Json :=
  Json.obj
    ((if b.blockNo = 0 then [] else [("blockNo", Json.num (b.blockNo : Int))]) ++
      (if b.hash = "" then [] else [("hash", Json.str b.hash)]) ++
      (if b.slot = 0 then [] else [("slot", Json.num (b.slot : Int))]))

def BlockV5.fromJson : Json → Except GoErr BlockV5
  | Json.obj fields => do
      let blockNo ← match assocLookup fields "blockNo" with
        | none => Except.ok 0
        | some j => jsonSetUint64 0 j
      let hash ← match assocLookup fields "hash" with
        | none => Except.ok ""
        | some j => jsonSetString "" j
      let slot ← match assocLookup fields "slot" with
        | none => Except.ok 0
        | some j => jsonSetUint64 0 j
      Except.ok ⟨blockNo, hash, slot⟩
  | Json.null => Except.ok ⟨0, "", 0⟩
  | _ => Except.error (GoErr.msg "json: cannot unmarshal value into BlockV5")

/-- Modelled from the spec: the legacy RollForward wrapper
(spec section 6: `\x7bRollForward:\x7bblock,tip\x7d\x7d`). -/
structure RollForwardV5 where
  block : BlockV5
  tip : Option PointStructV5
  deriving DecidableEq, Repr

/-- Modelled from the spec: the legacy RollBackward wrapper
(spec section 6: `\x7bRollBackward:\x7bpoint,tip\x7d\x7d`). -/
structure RollBackwardV5 where
  point : PointV5
  tip : Option PointStructV5
  deriving DecidableEq, Repr

/-- Modelled from the spec: the legacy NextBlock result. -/
structure ResultNextBlockV5 where
  rollForward : Option RollForwardV5
  rollBackward : Option RollBackwardV5
  deriving DecidableEq, Repr

def RollForwardV5.toJson (f : RollForwardV5) : Json :=
  Json.obj
    ([("block", f.block.toJson)] ++
      (match f.tip with
       | none => []
       | some t => [("tip", t.toJson)]))

def RollForwardV5.fromJson : Json → Except GoErr RollForwardV5
  | Json.obj fields => do
      let b ← match assocLookup fields "block" with
        | none => Except.ok (⟨0, "", 0⟩ : BlockV5)
        | some j => BlockV5.fromJson j
      let t ← jsonSetOpt PointStructV5.fromJson (assocLookup fields "tip")
      Except.ok ⟨b, t⟩
  | Json.null => Except.ok ⟨⟨0, "", 0⟩, none⟩
  | _ => Except.error (GoErr.msg "json: cannot unmarshal value into RollForwardV5")

def RollBackwardV5.toJson (bk : RollBackwardV5) : Json :=
  Json.obj
    ([("point", bk.point.toJson)] ++
      (match bk.tip with
       | none => []
       | some t => [("tip", t.toJson)]))

def RollBackwardV5.fromJson : Json → Except GoErr RollBackwardV5
  | Json.obj fields => do
      let p ← match assocLookup fields "point" with
        | none => Except.ok (PointV5.str "")
        | some j => PointV5.fromJson j
      let t ← jsonSetOpt PointStructV5.fromJson (assocLookup fields "tip")
      Except.ok ⟨p, t⟩
  | Json.null => Except.ok ⟨PointV5.str "", none⟩
  | _ => Except.error (GoErr.msg "json: cannot unmarshal value into RollBackwardV5")

def ResultNextBlockV5.toJson (v : ResultNextBlockV5) : Json :=
  Json.obj
    ((match v.rollForward with
      | none => []
      | some f => [("RollForward", f.toJson)]) ++
      (match v.rollBackward with
       | none => []
       | some bk => [("RollBackward", bk.toJson)]))

def ResultNextBlockV5.fromJson : Json → Except GoErr ResultNextBlockV5
  | Json.obj fields => do
      let f ← jsonSetOpt RollForwardV5.fromJson (assocLookup fields "RollForward")
      let bk ← jsonSetOpt RollBackwardV5.fromJson (assocLookup fields "RollBackward")
      Except.ok ⟨f, bk⟩
  | Json.null => Except.ok ⟨none, none⟩
  | _ => Except.error (GoErr.msg "json: cannot unmarshal value into ResultNextBlockV5")

/-- Modelled from the spec: v5→v6 block conversion on the fields
representable in both schemas. -/
def BlockV5.toV6 (b : BlockV5) : Block :=
  ⟨"", "", b.hash, "", b.blockNo, b.slot⟩

/-- Modelled from the spec: reverse block conversion used on the write
path. -/
def BlockFromV6 (b : Block) : BlockV5 :=
  ⟨b.height, b.id, b.slot⟩

/-- Modelled from the spec: `ResultNextBlockV5.ConvertToV6`
(spec section 4.3): a RollForward wrapper becomes direction "forward" with
the block, a RollBackward wrapper becomes direction "backward" with the
point. -/
def ResultNextBlockV5.convertToV6 (v : ResultNextBlockV5) : ResultNextBlockPraos :=
  match v.rollForward with
  | some f =>
      ⟨RollForwardString, f.tip.map PointStructV5.toV6, some f.block.toV6, none⟩
  | none =>
      match v.rollBackward with
      | some bk =>
          ⟨RollBackwardString, bk.tip.map PointStructV5.toV6, none, some bk.point.toV6⟩
      | none => ⟨"", none, none, none⟩

/-- Modelled from the spec: `v5.ResultNextBlockFromV6`, the write-path
conversion (spec section 4.3's encode direction: fields with no
informational content are left absent). -/
def ResultNextBlockFromV6 (six : ResultNextBlockPraos) : ResultNextBlockV5 :=
  if six.direction = RollForwardString then
    ⟨some ⟨BlockFromV6 (six.block.getD ⟨"", "", "", "", 0, 0⟩),
      six.tip.map (fun t => ⟨t.height.getD 0, t.id, t.slot⟩)⟩, none⟩
  else
    ⟨none, some ⟨PointFromV6 (six.point.getD Point.zero),
      six.tip.map (fun t => ⟨t.height.getD 0, t.id, t.slot⟩)⟩⟩

/-- `CompatibleResultNextBlock` is defined type-identical to the v6
result. -/
abbrev CompatibleResultNextBlock := ResultNextBlockPraos

/-- The fall-back half of `CompatibleResultNextBlock.UnmarshalJSON`: the v5
attempt (accept when either wrapper is populated) and the error path, which
wraps only the v5 attempt's (possibly nil) error.  The "v5 of v6" wording
reproduces the source string. -/
def CompatibleResultNextBlock.v5Attempt (data : Json) :
    Except GoErr CompatibleResultNextBlock :=
  match ResultNextBlockV5.fromJson data with
  | Except.ok v =>
      if v.rollBackward.isSome ∨ v.rollForward.isSome then
        Except.ok v.convertToV6
      else
        Except.error (GoErr.wrapNil "unable to parse as either v5 of v6 NextBlock")
  | Except.error e =>
      Except.error (GoErr.wrap "unable to parse as either v5 of v6 NextBlock" e)

/-- `CompatibleResultNextBlock.UnmarshalJSON`: attempt v6 and accept when
`Direction` is non-empty; otherwise fall back to v5. -/
def CompatibleResultNextBlock.unmarshalJSON (data : Json) :
    Except GoErr CompatibleResultNextBlock :=
  match ResultNextBlockPraos.fromJson data with
  | Except.ok r =>
      if r.direction ≠ "" then Except.ok r
      else CompatibleResultNextBlock.v5Attempt data
  | Except.error _ => CompatibleResultNextBlock.v5Attempt data

/-- `CompatibleResultNextBlock.MarshalJSON`: always serialize in the legacy
schema via the write-path conversion. -/
def CompatibleResultNextBlock.marshalJSON (c : CompatibleResultNextBlock) : Json :=
  (ResultNextBlockFromV6 c).toJson

lemma psv5_fromJson_toJson (t : PointStructV5) (h : t.inRange) :
    PointStructV5.fromJson t.toJson = Except.ok t := by
  obtain ⟨bn, hs, sl⟩ := t
  obtain ⟨h1, h2⟩ := h
  by_cases hb : bn = 0 <;> by_cases hh : hs = "" <;> by_cases hsl : sl = 0 <;>
    simp_all [PointStructV5.toJson, PointStructV5.fromJson, assocLookup,
      jsonSetString, jsonSetUint64, goUint64_coe]

lemma blockv5_fromJson_toJson (b : BlockV5) (h : b.inRange) :
    BlockV5.fromJson b.toJson = Except.ok b := by
  obtain ⟨bn, hs, sl⟩ := b
  obtain ⟨h1, h2⟩ := h
  by_cases hb : bn = 0 <;> by_cases hh : hs = "" <;> by_cases hsl : sl = 0 <;>
    simp_all [BlockV5.toJson, BlockV5.fromJson, assocLookup,
      jsonSetString, jsonSetUint64, goUint64_coe]

lemma pv5_fromJson_toJson (p : PointV5) (h : p.wf) :
    PointV5.fromJson p.toJson = Except.ok p := by
  cases p with
  | str s => rfl
  | struct ps =>
      show (PointStructV5.fromJson ps.toJson).map PointV5.struct =
        Except.ok (PointV5.struct ps)
      rw [psv5_fromJson_toJson ps h]
      rfl

@[simp] lemma jsonSetOpt_none {α : Type} (dec : Json → Except GoErr α) :
    jsonSetOpt dec none = Except.ok none := rfl

lemma jsonSetOpt_psv5 (t : PointStructV5) (h : t.inRange) :
    jsonSetOpt PointStructV5.fromJson (some t.toJson) = Except.ok (some t) := by
  show (PointStructV5.fromJson t.toJson).map some = _
  rw [psv5_fromJson_toJson t h]
  rfl

lemma ifv5_fromJson_toJson (f : IntersectionFoundV5) (hp : f.point.wf)
    (ht : ∀ t, f.tip = some t → t.inRange) :
    IntersectionFoundV5.fromJson f.toJson = Except.ok f := by
  obtain ⟨p, t⟩ := f
  cases t with
  | none =>
      simp_all [IntersectionFoundV5.toJson, IntersectionFoundV5.fromJson, assocLookup,
        jsonSetOpt, pv5_fromJson_toJson]
  | some t0 =>
      have h0 := ht t0 rfl
      simp_all [IntersectionFoundV5.toJson, IntersectionFoundV5.fromJson, assocLookup,
        pv5_fromJson_toJson, jsonSetOpt_psv5]

lemma infv5_fromJson_toJson (nf : IntersectionNotFoundV5)
    (ht : ∀ t, nf.tip = some t → t.inRange) :
    IntersectionNotFoundV5.fromJson nf.toJson = Except.ok nf := by
  obtain ⟨t⟩ := nf
  cases t with
  | none =>
      simp_all [IntersectionNotFoundV5.toJson, IntersectionNotFoundV5.fromJson,
        assocLookup, jsonSetOpt]
  | some t0 =>
      have h0 := ht t0 rfl
      simp_all [IntersectionNotFoundV5.toJson, IntersectionNotFoundV5.fromJson,
        assocLookup, jsonSetOpt_psv5]

lemma rfv5_fromJson_toJson (f : RollForwardV5) (hb : f.block.inRange)
    (ht : ∀ t, f.tip = some t → t.inRange) :
    RollForwardV5.fromJson f.toJson = Except.ok f := by
  obtain ⟨b, t⟩ := f
  have hbj : BlockV5.fromJson b.toJson = Except.ok b := blockv5_fromJson_toJson b hb
  cases t with
  | none =>
      simp_all [RollForwardV5.toJson, RollForwardV5.fromJson, assocLookup, jsonSetOpt]
  | some t0 =>
      have h0 := ht t0 rfl
      simp_all [RollForwardV5.toJson, RollForwardV5.fromJson, assocLookup,
        jsonSetOpt_psv5]

lemma rbv5_fromJson_toJson (bk : RollBackwardV5) (hp : bk.point.wf)
    (ht : ∀ t, bk.tip = some t → t.inRange) :
    RollBackwardV5.fromJson bk.toJson = Except.ok bk := by
  obtain ⟨p, t⟩ := bk
  cases t with
  | none =>
      simp_all [RollBackwardV5.toJson, RollBackwardV5.fromJson, assocLookup,
        jsonSetOpt, pv5_fromJson_toJson]
  | some t0 =>
      have h0 := ht t0 rfl
      simp_all [RollBackwardV5.toJson, RollBackwardV5.fromJson, assocLookup,
        pv5_fromJson_toJson, jsonSetOpt_psv5]

/-- The v6 decoder finds none of its keys in a legacy FindIntersection
object: every field decodes to its zero value. -/
lemma v6fi_on_v5_json (v : ResultFindIntersectionV5) :
    ResultFindIntersectionPraos.fromJson v.toJson =
      Except.ok ⟨none, none, none, none⟩ := by
  obtain ⟨f, nf⟩ := v
  cases f <;> cases nf <;>
    simp [ResultFindIntersectionV5.toJson, ResultFindIntersectionPraos.fromJson,
      assocLookup, jsonSetOpt]

/-- The v6 decoder finds none of its keys in a legacy NextBlock object. -/
lemma v6nb_on_v5_json (v : ResultNextBlockV5) :
    ResultNextBlockPraos.fromJson v.toJson = Except.ok ⟨"", none, none, none⟩ := by
  obtain ⟨f, bk⟩ := v
  cases f <;> cases bk <;>
    simp [ResultNextBlockV5.toJson, ResultNextBlockPraos.fromJson,
      assocLookup, jsonSetString, jsonSetOpt]

lemma pointFromV6_toV6 (p : PointV5) : PointFromV6 p.toV6 = p := by
  cases p with
  | str s => rfl
  | struct ps => rfl

lemma jsonSetOpt_ifv5 (f : IntersectionFoundV5) (hp : f.point.wf)
    (ht : ∀ t, f.tip = some t → t.inRange) :
    jsonSetOpt IntersectionFoundV5.fromJson (some f.toJson) = Except.ok (some f) := by
  show (IntersectionFoundV5.fromJson f.toJson).map some = _
  rw [ifv5_fromJson_toJson f hp ht]
  rfl

lemma jsonSetOpt_infv5 (nf : IntersectionNotFoundV5)
    (ht : ∀ t, nf.tip = some t → t.inRange) :
    jsonSetOpt IntersectionNotFoundV5.fromJson (some nf.toJson) = Except.ok (some nf) := by
  show (IntersectionNotFoundV5.fromJson nf.toJson).map some = _
  rw [infv5_fromJson_toJson nf ht]
  rfl

lemma jsonSetOpt_rfv5 (f : RollForwardV5) (hb : f.block.inRange)
    (ht : ∀ t, f.tip = some t → t.inRange) :
    jsonSetOpt RollForwardV5.fromJson (some f.toJson) = Except.ok (some f) := by
  show (RollForwardV5.fromJson f.toJson).map some = _
  rw [rfv5_fromJson_toJson f hb ht]
  rfl

lemma jsonSetOpt_rbv5 (bk : RollBackwardV5) (hp : bk.point.wf)
    (ht : ∀ t, bk.tip = some t → t.inRange) :
    jsonSetOpt RollBackwardV5.fromJson (some bk.toJson) = Except.ok (some bk) := by
  show (RollBackwardV5.fromJson bk.toJson).map some = _
  rw [rbv5_fromJson_toJson bk hp ht]
  rfl

lemma fiv5_fromJson_toJson (v : ResultFindIntersectionV5)
    (hf : ∀ f, v.intersectionFound = some f →
      f.point.wf ∧ ∀ t, f.tip = some t → t.inRange)
    (hnf : ∀ nf, v.intersectionNotFound = some nf → ∀ t, nf.tip = some t → t.inRange) :
    ResultFindIntersectionV5.fromJson v.toJson = Except.ok v := by
  obtain ⟨f, nf⟩ := v
  cases f with
  | none =>
      cases nf with
      | none =>
          simp [ResultFindIntersectionV5.toJson, ResultFindIntersectionV5.fromJson,
            assocLookup, jsonSetOpt]
      | some nf0 =>
          have h0 := hnf nf0 rfl
          simp [ResultFindIntersectionV5.toJson, ResultFindIntersectionV5.fromJson,
            assocLookup, jsonSetOpt_infv5 nf0 h0]
  | some f0 =>
      obtain ⟨hp0, ht0⟩ := hf f0 rfl
      cases nf with
      | none =>
          simp [ResultFindIntersectionV5.toJson, ResultFindIntersectionV5.fromJson,
            assocLookup, jsonSetOpt_ifv5 f0 hp0 ht0]
      | some nf0 =>
          have h0 := hnf nf0 rfl
          simp [ResultFindIntersectionV5.toJson, ResultFindIntersectionV5.fromJson,
            assocLookup, jsonSetOpt_ifv5 f0 hp0 ht0, jsonSetOpt_infv5 nf0 h0]

lemma nbv5_fromJson_toJson (v : ResultNextBlockV5)
    (hf : ∀ f, v.rollForward = some f →
      f.block.inRange ∧ ∀ t, f.tip = some t → t.inRange)
    (hbk : ∀ bk, v.rollBackward = some bk →
      bk.point.wf ∧ ∀ t, bk.tip = some t → t.inRange) :
    ResultNextBlockV5.fromJson v.toJson = Except.ok v := by
  obtain ⟨f, bk⟩ := v
  cases f with
  | none =>
      cases bk with
      | none =>
          simp [ResultNextBlockV5.toJson, ResultNextBlockV5.fromJson,
            assocLookup, jsonSetOpt]
      | some bk0 =>
          obtain ⟨hp0, ht0⟩ := hbk bk0 rfl
          simp [ResultNextBlockV5.toJson, ResultNextBlockV5.fromJson,
            assocLookup, jsonSetOpt_rbv5 bk0 hp0 ht0]
  | some f0 =>
      obtain ⟨hb0, ht0⟩ := hf f0 rfl
      cases bk with
      | none =>
          simp [ResultNextBlockV5.toJson, ResultNextBlockV5.fromJson,
            assocLookup, jsonSetOpt_rfv5 f0 hb0 ht0]
      | some bk0 =>
          obtain ⟨hp1, ht1⟩ := hbk bk0 rfl
          simp [ResultNextBlockV5.toJson, ResultNextBlockV5.fromJson,
            assocLookup, jsonSetOpt_rfv5 f0 hb0 ht0, jsonSetOpt_rbv5 bk0 hp1 ht1]

lemma c3fi_marshal_found (p : PointV5) (t : PointStructV5) :
    CompatibleResultFindIntersection.marshalJSON
      (ResultFindIntersectionV5.convertToV6 ⟨some ⟨p, some t⟩, none⟩) =
      ResultFindIntersectionV5.toJson ⟨some ⟨p, some t⟩, none⟩ := by
  cases p <;> rfl

lemma c3fi_marshal_notFound (t : PointStructV5) :
    CompatibleResultFindIntersection.marshalJSON
      (ResultFindIntersectionV5.convertToV6 ⟨none, some ⟨some t⟩⟩) =
      ResultFindIntersectionV5.toJson ⟨none, some ⟨some t⟩⟩ := by
  rfl

lemma c3nb_marshal_forward (b : BlockV5) (t : Option PointStructV5) :
    CompatibleResultNextBlock.marshalJSON
      (ResultNextBlockV5.convertToV6 ⟨some ⟨b, t⟩, none⟩) =
      ResultNextBlockV5.toJson ⟨some ⟨b, t⟩, none⟩ := by
  cases t <;> rfl

lemma c3nb_marshal_backward (p : PointV5) (t : Option PointStructV5) :
    CompatibleResultNextBlock.marshalJSON
      (ResultNextBlockV5.convertToV6 ⟨none, some ⟨p, t⟩⟩) =
      ResultNextBlockV5.toJson ⟨none, some ⟨p, t⟩⟩ := by
  cases p <;> cases t <;> rfl

lemma c3fi_decode (v : ResultFindIntersectionV5)
    (hacc : v.intersectionFound.isSome ∨ v.intersectionNotFound.isSome)
    (hf : ∀ f, v.intersectionFound = some f →
      f.point.wf ∧ ∀ t, f.tip = some t → t.inRange)
    (hnf : ∀ nf, v.intersectionNotFound = some nf → ∀ t, nf.tip = some t → t.inRange) :
    CompatibleResultFindIntersection.unmarshalJSON v.toJson =
      Except.ok v.convertToV6 := by
  simp [CompatibleResultFindIntersection.unmarshalJSON, v6fi_on_v5_json v,
    CompatibleResultFindIntersection.v5Attempt, fiv5_fromJson_toJson v hf hnf, hacc]

lemma c3nb_decode (v : ResultNextBlockV5)
    (hacc : v.rollForward.isSome ∨ v.rollBackward.isSome)
    (hf : ∀ f, v.rollForward = some f →
      f.block.inRange ∧ ∀ t, f.tip = some t → t.inRange)
    (hbk : ∀ bk, v.rollBackward = some bk →
      bk.point.wf ∧ ∀ t, bk.tip = some t → t.inRange) :
    CompatibleResultNextBlock.unmarshalJSON v.toJson = Except.ok v.convertToV6 := by
  have hacc2 : v.rollBackward.isSome ∨ v.rollForward.isSome := hacc.symm
  simp [CompatibleResultNextBlock.unmarshalJSON, v6nb_on_v5_json v,
    CompatibleResultNextBlock.v5Attempt, nbv5_fromJson_toJson v hf hbk, hacc2]

/-- C3 (amended): for every well-formed legacy wire payload the shim
accepts whose FindIntersection result carries a tip, decoding, re-encoding
(always in the legacy schema) and decoding again yields the same normalized
value as the first decode; the same holds for NextBlock results with or
without a tip.  (Without the tip, the FindIntersection write path
materializes a zero-valued tip, see the counterexample.) -/
theorem c3_legacy_roundtrip :
    (∀ (p : PointV5) (t : PointStructV5), p.wf → t.inRange →
      ∃ c, CompatibleResultFindIntersection.unmarshalJSON
          (ResultFindIntersectionV5.toJson ⟨some ⟨p, some t⟩, none⟩) = Except.ok c ∧
        CompatibleResultFindIntersection.unmarshalJSON
          (CompatibleResultFindIntersection.marshalJSON c) = Except.ok c) ∧
    (∀ t : PointStructV5, t.inRange →
      ∃ c, CompatibleResultFindIntersection.unmarshalJSON
          (ResultFindIntersectionV5.toJson ⟨none, some ⟨some t⟩⟩) = Except.ok c ∧
        CompatibleResultFindIntersection.unmarshalJSON
          (CompatibleResultFindIntersection.marshalJSON c) = Except.ok c) ∧
    (∀ (b : BlockV5) (t : Option PointStructV5), b.inRange →
      (∀ t0, t = some t0 → t0.inRange) →
      ∃ c, CompatibleResultNextBlock.unmarshalJSON
          (ResultNextBlockV5.toJson ⟨some ⟨b, t⟩, none⟩) = Except.ok c ∧
        CompatibleResultNextBlock.unmarshalJSON
          (CompatibleResultNextBlock.marshalJSON c) = Except.ok c) ∧
    (∀ (p : PointV5) (t : Option PointStructV5), p.wf →
      (∀ t0, t = some t0 → t0.inRange) →
      ∃ c, CompatibleResultNextBlock.unmarshalJSON
          (ResultNextBlockV5.toJson ⟨none, some ⟨p, t⟩⟩) = Except.ok c ∧
        CompatibleResultNextBlock.unmarshalJSON
          (CompatibleResultNextBlock.marshalJSON c) = Except.ok c) := by
  refine ⟨fun p t hp ht => ?_, fun t ht => ?_, fun b t hb ht => ?_, fun p t hp ht => ?_⟩
  · have h1 := c3fi_decode ⟨some ⟨p, some t⟩, none⟩ (Or.inl rfl)
      (by intro f hf0
          have hf1 : some (⟨p, some t⟩ : IntersectionFoundV5) = some f := hf0
          cases hf1
          exact ⟨hp, by
            intro t0 ht0
            have ht1 : some t = some t0 := ht0
            cases ht1
            exact ht⟩)
      (by intro nf h; exact Option.noConfusion h)
    refine ⟨_, h1, ?_⟩
    rw [c3fi_marshal_found p t]
    exact h1
  · have h1 := c3fi_decode ⟨none, some ⟨some t⟩⟩ (Or.inr rfl)
      (by intro f h; exact Option.noConfusion h)
      (by intro nf hnf0
          have hnf1 : some (⟨some t⟩ : IntersectionNotFoundV5) = some nf := hnf0
          cases hnf1
          intro t0 h0
          have h1 : some t = some t0 := h0
          cases h1
          exact ht)
    refine ⟨_, h1, ?_⟩
    rw [c3fi_marshal_notFound t]
    exact h1
  · have h1 := c3nb_decode ⟨some ⟨b, t⟩, none⟩ (Or.inl rfl)
      (by intro f hf0
          have hf1 : some (⟨b, t⟩ : RollForwardV5) = some f := hf0
          cases hf1
          exact ⟨hb, ht⟩)
      (by intro bk h; exact Option.noConfusion h)
    refine ⟨_, h1, ?_⟩
    rw [c3nb_marshal_forward b t]
    exact h1
  · have h1 := c3nb_decode ⟨none, some ⟨p, t⟩⟩ (Or.inr rfl)
      (by intro f h; exact Option.noConfusion h)
      (by intro bk hbk0
          have hbk1 : some (⟨p, t⟩ : RollBackwardV5) = some bk := hbk0
          cases hbk1
          exact ⟨hp, ht⟩)
    refine ⟨_, h1, ?_⟩
    rw [c3nb_marshal_backward p t]
    exact h1

/-- C3 (witness): the four round-trip cases evaluated at concrete legacy
payloads (struct point with blockNo 1 / hash "h" / slot 2, tip blockNo 3 /
hash "t" / slot 4, block blockNo 9 / hash "bh" / slot 10). -/
theorem c3_legacy_roundtrip_witness :
    (∃ c, CompatibleResultFindIntersection.unmarshalJSON
        (ResultFindIntersectionV5.toJson
          ⟨some ⟨PointV5.struct ⟨1, "h", 2⟩, some ⟨3, "t", 4⟩⟩, none⟩) = Except.ok c ∧
      CompatibleResultFindIntersection.unmarshalJSON
        (CompatibleResultFindIntersection.marshalJSON c) = Except.ok c) ∧
    (∃ c, CompatibleResultNextBlock.unmarshalJSON
        (ResultNextBlockV5.toJson
          ⟨some ⟨⟨9, "bh", 10⟩, some ⟨3, "t", 4⟩⟩, none⟩) = Except.ok c ∧
      CompatibleResultNextBlock.unmarshalJSON
        (CompatibleResultNextBlock.marshalJSON c) = Except.ok c) :=
  ⟨c3_legacy_roundtrip.1 (PointV5.struct ⟨1, "h", 2⟩) ⟨3, "t", 4⟩
      (by constructor <;> norm_num) (by constructor <;> norm_num),
    c3_legacy_roundtrip.2.2.1 ⟨9, "bh", 10⟩ (some ⟨3, "t", 4⟩)
      (by constructor <;> norm_num)
      (by intro t0 h0
          cases h0
          constructor <;> norm_num)⟩

/-- C3 (counterexample): a legacy FindIntersection payload whose found
wrapper has no tip is accepted by the shim and decodes with an absent v6
tip, but the legacy write path attaches a (zero-valued) tip through a
non-nil pointer, so decoding the re-encoded value yields a present tip:
the round-trip fails on a field representable in both schemas. -/
theorem c3_legacy_roundtrip_counterexample :
    CompatibleResultFindIntersection.unmarshalJSON
        (ResultFindIntersectionV5.toJson
          ⟨some ⟨PointV5.str "origin", none⟩, none⟩) =
      Except.ok ⟨some (PointString.toPoint "origin"), none, none, none⟩ ∧
    CompatibleResultFindIntersection.unmarshalJSON
        (CompatibleResultFindIntersection.marshalJSON
          ⟨some (PointString.toPoint "origin"), none, none, none⟩) =
      Except.ok ⟨some (PointString.toPoint "origin"), some ⟨some 0, "", 0⟩, none, none⟩ ∧
    (some (⟨some 0, "", 0⟩ : PointStruct) ≠ (none : Option PointStruct)) :=
  ⟨rfl, rfl, by decide⟩

/-- C4 (amended): when neither the current nor the legacy schema accepts
the payload, the JSON decoders fail with the incompatible-wire-format
error wrapping only the legacy attempt's error (nil when the legacy decode
parsed but its distinguishing fields were empty); the current-schema
attempt's error is discarded, for both the FindIntersection and the
NextBlock decoder. -/
theorem c4_incompatible_error_wraps_legacy_only (data : Json)
    (h6 : ∀ r, ResultFindIntersectionPraos.fromJson data = Except.ok r →
      r.intersection = none ∧ r.error = none)
    (h5 : ∀ r5, ResultFindIntersectionV5.fromJson data = Except.ok r5 →
      r5.intersectionFound = none ∧ r5.intersectionNotFound = none)
    (h6n : ∀ r, ResultNextBlockPraos.fromJson data = Except.ok r → r.direction = "")
    (h5n : ∀ v, ResultNextBlockV5.fromJson data = Except.ok v →
      v.rollForward = none ∧ v.rollBackward = none) :
    CompatibleResultFindIntersection.unmarshalJSON data =
      Except.error (match ResultFindIntersectionV5.fromJson data with
        | Except.ok _ => GoErr.wrapNil "unable to parse as either v5 or v6 FindIntersection"
        | Except.error e5 =>
            GoErr.wrap "unable to parse as either v5 or v6 FindIntersection" e5) ∧
    CompatibleResultNextBlock.unmarshalJSON data =
      Except.error (match ResultNextBlockV5.fromJson data with
        | Except.ok _ => GoErr.wrapNil "unable to parse as either v5 of v6 NextBlock"
        | Except.error e5 =>
            GoErr.wrap "unable to parse as either v5 of v6 NextBlock" e5) := by
  constructor
  · have hv5 : CompatibleResultFindIntersection.v5Attempt data =
        Except.error (match ResultFindIntersectionV5.fromJson data with
          | Except.ok _ =>
              GoErr.wrapNil "unable to parse as either v5 or v6 FindIntersection"
          | Except.error e5 =>
              GoErr.wrap "unable to parse as either v5 or v6 FindIntersection" e5) := by
      unfold CompatibleResultFindIntersection.v5Attempt
      cases hr5 : ResultFindIntersectionV5.fromJson data with
      | ok r5 =>
          obtain ⟨ha, hb⟩ := h5 r5 hr5
          simp [ha, hb]
      | error e5 => simp
    unfold CompatibleResultFindIntersection.unmarshalJSON
    cases hr : ResultFindIntersectionPraos.fromJson data with
    | ok r =>
        obtain ⟨ha, hb⟩ := h6 r hr
        simp [ha, hb, hv5]
    | error e => simp [hv5]
  · have hv5 : CompatibleResultNextBlock.v5Attempt data =
        Except.error (match ResultNextBlockV5.fromJson data with
          | Except.ok _ => GoErr.wrapNil "unable to parse as either v5 of v6 NextBlock"
          | Except.error e5 =>
              GoErr.wrap "unable to parse as either v5 of v6 NextBlock" e5) := by
      unfold CompatibleResultNextBlock.v5Attempt
      cases hr5 : ResultNextBlockV5.fromJson data with
      | ok v =>
          obtain ⟨ha, hb⟩ := h5n v hr5
          simp [ha, hb]
      | error e5 => simp
    unfold CompatibleResultNextBlock.unmarshalJSON
    cases hr : ResultNextBlockPraos.fromJson data with
    | ok r =>
        have ha := h6n r hr
        simp [ha, hv5]
    | error e => simp [hv5]

/-- C4 (witness): the amended statement evaluated at the JSON document
"x", on which both schema attempts fail to parse. -/
theorem c4_incompatible_error_witness :
    CompatibleResultFindIntersection.unmarshalJSON (Json.str "x") =
      Except.error (GoErr.wrap "unable to parse as either v5 or v6 FindIntersection"
        (GoErr.msg "json: cannot unmarshal value into ResultFindIntersectionV5")) ∧
    CompatibleResultNextBlock.unmarshalJSON (Json.str "x") =
      Except.error (GoErr.wrap "unable to parse as either v5 of v6 NextBlock"
        (GoErr.msg "json: cannot unmarshal value into ResultNextBlockV5")) := by
  have h := c4_incompatible_error_wraps_legacy_only (Json.str "x")
    (by intro r hr; simp [ResultFindIntersectionPraos.fromJson] at hr)
    (by intro r5 hr; simp [ResultFindIntersectionV5.fromJson] at hr)
    (by intro r hr; simp [ResultNextBlockPraos.fromJson] at hr)
    (by intro v hr; simp [ResultNextBlockV5.fromJson] at hr)
  exact ⟨h.1, h.2⟩

/-- C4 (counterexample): on the document "x" both decode attempts fail,
with distinct errors; the decoder's incompatible-wire-format error wraps
the legacy attempt's error but does not carry the current-schema attempt's
error, so the claim that it carries both underlying errors is false. -/
theorem c4_incompatible_error_counterexample :
    ResultFindIntersectionPraos.fromJson (Json.str "x") =
      Except.error (GoErr.msg "json: cannot unmarshal value into ResultFindIntersectionPraos") ∧
    ResultFindIntersectionV5.fromJson (Json.str "x") =
      Except.error (GoErr.msg "json: cannot unmarshal value into ResultFindIntersectionV5") ∧
    CompatibleResultFindIntersection.unmarshalJSON (Json.str "x") =
      Except.error (GoErr.wrap "unable to parse as either v5 or v6 FindIntersection"
        (GoErr.msg "json: cannot unmarshal value into ResultFindIntersectionV5")) ∧
    GoErr.contains
        (GoErr.wrap "unable to parse as either v5 or v6 FindIntersection"
          (GoErr.msg "json: cannot unmarshal value into ResultFindIntersectionV5"))
        (GoErr.msg "json: cannot unmarshal value into ResultFindIntersectionPraos") = false :=
  ⟨rfl, rfl, rfl, by decide⟩

/-- dynamodbattribute: decode an optional pointer field (absent key or NULL
attribute leaves the pointer nil). -/
def attrSetOpt {α : Type} (dec : Attr → Except GoErr α) :
    Option Attr → Except GoErr (Option α)
  | none => Except.ok none
  | some Attr.NULLV => Except.ok none
  | some a => (dec a).map some

/-- dynamodbattribute: decode a string attribute into a `string` field. -/
def attrSetString (cur : String) : Attr → Except GoErr String
  | Attr.S s => Except.ok s
  | Attr.NULLV => Except.ok cur
  | _ => Except.error (GoErr.msg "dynamodbattribute: cannot unmarshal into string")

/-- dynamodbattribute: a raw-JSON (`json.RawMessage`) field only decodes
from a binary attribute, which none of the embedded encoders produce;
any present attribute is an error. -/
def attrSetRaw : Option Attr → Except GoErr (Option Json)
  | none => Except.ok none
  | some _ =>
      Except.error (GoErr.msg "dynamodbattribute: cannot unmarshal attribute into RawMessage")

/-- dynamodbattribute decoding of the v6 `PointStruct` from an attribute
(the struct sits behind a pointer, so only a map attribute is accepted). -/
def PointStruct.fromAttr : Attr → Except GoErr PointStruct
  | Attr.M fields => PointStruct.fromAttrMap fields
  | _ => Except.error (GoErr.msg "dynamodbattribute: cannot unmarshal into PointStruct")

/-- dynamodbattribute decoding of the v6 `ResultError`. -/
def ResultError.fromAttr : Attr → Except GoErr ResultError
  | Attr.M fields => do
      let code ← match assocLookup fields "code" with
        | none => Except.ok 0
        | some (Attr.N n) => goUint32 n
        | some Attr.NULLV => Except.ok 0
        | some _ => Except.error (GoErr.msg "dynamodbattribute: cannot unmarshal into uint32")
      let message ← match assocLookup fields "message" with
        | none => Except.ok ""
        | some a => attrSetString "" a
      let d ← attrSetRaw (assocLookup fields "data")
      let i ← attrSetRaw (assocLookup fields "id")
      Except.ok ⟨code, message, d, i⟩
  | _ => Except.error (GoErr.msg "dynamodbattribute: cannot unmarshal into ResultError")

/-- dynamodbattribute decoding of `ResultFindIntersectionPraos` (the v6
attempt of the compatibility decoder); the `*Point` field goes through the
Point's custom attribute unmarshaler on a fresh receiver. -/
def ResultFindIntersectionPraos.fromAttr : Attr → Except GoErr ResultFindIntersectionPraos
  | Attr.M fields => do
      let i ← attrSetOpt (fun a => Point.unmarshalDynamo Point.zero (some a))
        (assocLookup fields "intersection")
      let t ← attrSetOpt PointStruct.fromAttr (assocLookup fields "tip")
      let e ← attrSetOpt ResultError.fromAttr (assocLookup fields "error")
      let idr ← attrSetRaw (assocLookup fields "id")
      Except.ok ⟨i, t, e, idr⟩
  | _ =>
      Except.error
        (GoErr.msg "dynamodbattribute: cannot unmarshal into ResultFindIntersectionPraos")

/-- Modelled from the spec: dynamodbattribute decoding of the legacy struct
point. -/
def PointStructV5.fromAttrMap (fields : List (String × Attr)) :
    Except GoErr PointStructV5 := do
  let blockNo ← match assocLookup fields "blockNo" with
    | none => Except.ok 0
    | some (Attr.N n) => goUint64 n
    | some Attr.NULLV => Except.ok 0
    | some _ => Except.error (GoErr.msg "dynamodbattribute: cannot unmarshal into uint64")
  let hash ← match assocLookup fields "hash" with
    | none => Except.ok ""
    | some a => attrSetString "" a
  let slot ← match assocLookup fields "slot" with
    | none => Except.ok 0
    | some (Attr.N n) => goUint64 n
    | some Attr.NULLV => Except.ok 0
    | some _ => Except.error (GoErr.msg "dynamodbattribute: cannot unmarshal into uint64")
  Except.ok ⟨blockNo, hash, slot⟩

/-- Modelled from the spec: dynamodbattribute decoding of the legacy Point,
the same dispatch as the v6 Point's custom unmarshaler (a fall-through
leaves the zero value, modelled as the empty string marker). -/
def PointV5.fromAttr : Attr → Except GoErr PointV5
  | Attr.S s => Except.ok (PointV5.str s)
  | Attr.M fields =>
      if fields.length > 0 then (PointStructV5.fromAttrMap fields).map PointV5.struct
      else Except.ok (PointV5.str "")
  | _ => Except.ok (PointV5.str "")

/-- Modelled from the spec: dynamodbattribute decoding of the legacy
`*PointStructV5` tip. -/
def PointStructV5.fromAttr : Attr → Except GoErr PointStructV5
  | Attr.M fields => PointStructV5.fromAttrMap fields
  | _ => Except.error (GoErr.msg "dynamodbattribute: cannot unmarshal into PointStructV5")

/-- Modelled from the spec: dynamodbattribute decoding of the legacy
IntersectionFound wrapper. -/
def IntersectionFoundV5.fromAttr : Attr → Except GoErr IntersectionFoundV5
  | Attr.M fields => do
      let p ← match assocLookup fields "point" with
        | none => Except.ok (PointV5.str "")
        | some a => PointV5.fromAttr a
      let t ← attrSetOpt PointStructV5.fromAttr (assocLookup fields "tip")
      Except.ok ⟨p, t⟩
  | _ =>
      Except.error (GoErr.msg "dynamodbattribute: cannot unmarshal into IntersectionFoundV5")

/-- Modelled from the spec: dynamodbattribute decoding of the legacy
IntersectionNotFound wrapper. -/
def IntersectionNotFoundV5.fromAttr : Attr → Except GoErr IntersectionNotFoundV5
  | Attr.M fields => do
      let t ← attrSetOpt PointStructV5.fromAttr (assocLookup fields "tip")
      Except.ok ⟨t⟩
  | _ =>
      Except.error
        (GoErr.msg "dynamodbattribute: cannot unmarshal into IntersectionNotFoundV5")

/-- Modelled from the spec: dynamodbattribute decoding of the legacy
FindIntersection result. -/
def ResultFindIntersectionV5.fromAttr : Attr → Except GoErr ResultFindIntersectionV5
  | Attr.M fields => do
      let f ← attrSetOpt IntersectionFoundV5.fromAttr
        (assocLookup fields "IntersectionFound")
      let nf ← attrSetOpt IntersectionNotFoundV5.fromAttr
        (assocLookup fields "IntersectionNotFound")
      Except.ok ⟨f, nf⟩
  | _ =>
      Except.error
        (GoErr.msg "dynamodbattribute: cannot unmarshal into ResultFindIntersectionV5")

/-- `CompatibleResultFindIntersection.UnmarshalDynamoDBAttributeValue`: the
v6 attempt is accepted on a populated `Intersection`; the v5 branch then
tests `s.Intersection` — the variable holding the v6 decode (nil whenever
this branch is reached) — instead of the v5 value `v`, so the legacy branch
can never be accepted.  `s` holds the zero value when the v6 attempt
errored. -/
def CompatibleResultFindIntersection.unmarshalDynamo (item : Attr) :
    Except GoErr CompatibleResultFindIntersection :=
  let first := ResultFindIntersectionPraos.fromAttr item
  let s : ResultFindIntersectionPraos :=
    match first with
    | Except.ok v => v
    | Except.error _ => ⟨none, none, none, none⟩
  if first.isOk && s.intersection.isSome then Except.ok s
  else
    match ResultFindIntersectionV5.fromAttr item with
    | Except.ok v =>
        if s.intersection.isSome then Except.ok v.convertToV6
        else Except.error (GoErr.wrapNil "unable to parse as either v5 or v6 FindIntersection")
    | Except.error e =>
        Except.error (GoErr.wrap "unable to parse as either v5 or v6 FindIntersection" e)

/-- C2: the compatibility decoders do not implement the claimed detection
predicate uniformly.  At an attribute item holding a well-formed legacy
IntersectionFound value, the legacy decode succeeds with its distinguishing
field populated and the v6 decode succeeds with an empty intersection, yet
the attribute decoder rejects the payload (its legacy branch tests the v6
variable `s` instead of the v5 value), while the JSON decoder accepts the
equivalent JSON payload; and the JSON v6 attempt is also accepted on a
payload whose only populated field is `error`, not `intersection`. -/
theorem c2_dynamo_legacy_never_accepted :
    ResultFindIntersectionV5.fromAttr
        (Attr.M [("IntersectionFound", Attr.M
          [("point", Attr.S "origin"),
           ("tip", Attr.M [("blockNo", Attr.N 3), ("hash", Attr.S "t"), ("slot", Attr.N 4)])])]) =
      Except.ok ⟨some ⟨PointV5.str "origin", some ⟨3, "t", 4⟩⟩, none⟩ ∧
    ResultFindIntersectionPraos.fromAttr
        (Attr.M [("IntersectionFound", Attr.M
          [("point", Attr.S "origin"),
           ("tip", Attr.M [("blockNo", Attr.N 3), ("hash", Attr.S "t"), ("slot", Attr.N 4)])])]) =
      Except.ok ⟨none, none, none, none⟩ ∧
    CompatibleResultFindIntersection.unmarshalDynamo
        (Attr.M [("IntersectionFound", Attr.M
          [("point", Attr.S "origin"),
           ("tip", Attr.M [("blockNo", Attr.N 3), ("hash", Attr.S "t"), ("slot", Attr.N 4)])])]) =
      Except.error (GoErr.wrapNil "unable to parse as either v5 or v6 FindIntersection") ∧
    CompatibleResultFindIntersection.unmarshalJSON
        (ResultFindIntersectionV5.toJson
          ⟨some ⟨PointV5.str "origin", some ⟨3, "t", 4⟩⟩, none⟩) =
      Except.ok
        (ResultFindIntersectionV5.convertToV6
          ⟨some ⟨PointV5.str "origin", some ⟨3, "t", 4⟩⟩, none⟩) ∧
    CompatibleResultFindIntersection.unmarshalJSON
        (Json.obj [("error", Json.obj [("code", Json.num 1)])]) =
      Except.ok ⟨none, none, some ⟨1, "", none, none⟩, none⟩ :=
  ⟨rfl, rfl, rfl, rfl, rfl⟩

/-- Go range check for JSON numbers stored into an `int64` field. -/
def goInt64 (n : Int) : Except GoErr Int :=
  if -(2 ^ 63) ≤ n ∧ n < 2 ^ 63 then Except.ok n
  else Except.error (GoErr.msg "number out of range for int64")

/-- encoding/json: store a JSON value into an `int64` field. -/
def jsonSetInt64 (cur : Int) : Json → Except GoErr Int
  | Json.null => Except.ok cur
  | Json.num n => goInt64 n
  | _ => Except.error (GoErr.msg "json: cannot unmarshal value into int64")

/-- Modelled from the spec: `num.Int` (the ogmigo num package is not under
src/) is an arbitrary-precision integer backed by math/big; its JSON decode
accepts any integral number with no range check.  The v5 `TxBody.Fee` and
`Value.Coins` fields decode through it. -/
def NumInt.fromJson : Json → Except GoErr Int
  | Json.num n => Except.ok n
  | _ => Except.error (GoErr.msg "num: cannot unmarshal value into Int")

/-- `ExUnitsBudget` from the transaction-evaluation client: `Memory` and
`Cpu` are fixed-width `uint64` fields. -/
structure ExUnitsBudget where
  memory : Nat
  cpu : Nat
  deriving DecidableEq, Repr

/-- encoding/json unmarshalling of `ExUnitsBudget`: each field is a
`uint64`, so decoding range-checks against 2^64. -/
def ExUnitsBudget.fromJson : Json → Except GoErr ExUnitsBudget
  | Json.obj fields => do
      let m ← match assocLookup fields "memory" with
        | none => Except.ok 0
        | some j => jsonSetUint64 0 j
      let c ← match assocLookup fields "cpu" with
        | none => Except.ok 0
        | some j => jsonSetUint64 0 j
      Except.ok ⟨m, c⟩
  | Json.null => Except.ok ⟨0, 0⟩
  | _ => Except.error (GoErr.msg "json: cannot unmarshal value into ExUnitsBudget")

/-- Decode the entries of the v5 `TxBody.Withdrawals` field, a
`map[string]int64`: each value is a fixed-width `int64`. -/
def withdrawalsFields : List (String × Json) → Except GoErr (List (String × Int))
  | [] => Except.ok []
  | (k, j) :: rest => do
      let v ← jsonSetInt64 0 j
      let vs ← withdrawalsFields rest
      Except.ok ((k, v) :: vs)

/-- encoding/json unmarshalling of the v5 `TxBody.Withdrawals` map. -/
def withdrawalsFromJson : Json → Except GoErr (List (String × Int))
  | Json.obj fields => withdrawalsFields fields
  | Json.null => Except.ok []
  | _ => Except.error (GoErr.msg "json: cannot unmarshal value into map of int64")

/-- C9 (amended): the v5 fee and coin amounts decode through the
arbitrary-precision num.Int, which accepts every integer; but execution
units (`ExUnitsBudget.Memory`/`Cpu`, `uint64`) and the v5 withdrawal
amounts (`map[string]int64`) are fixed-width machine integers whose decode
fails on values at or beyond their width. -/
theorem c9_numeric_widths (n big w : Int) (hbig : 2 ^ 64 ≤ big) (hw : 2 ^ 63 ≤ w) :
    NumInt.fromJson (Json.num n) = Except.ok n ∧
    ExUnitsBudget.fromJson (Json.obj [("memory", Json.num big), ("cpu", Json.num 0)]) =
      Except.error (GoErr.msg "number out of range for uint64") ∧
    withdrawalsFromJson (Json.obj [("addr", Json.num w)]) =
      Except.error (GoErr.msg "number out of range for int64") := by
  have hb : ¬(0 ≤ big ∧ big < 18446744073709551616) :=
    fun h => absurd h.2 (not_lt.mpr (le_trans (by norm_num) hbig))
  have hwn : ¬(-9223372036854775808 ≤ w ∧ w < 9223372036854775808) :=
    fun h => absurd h.2 (not_lt.mpr (le_trans (by norm_num) hw))
  refine ⟨rfl, ?_, ?_⟩
  · simp [ExUnitsBudget.fromJson, assocLookup, jsonSetUint64, goUint64, hb]
  · simp [withdrawalsFromJson, withdrawalsFields, jsonSetInt64, goInt64, hwn]

/-- C9 (witness): the amended statement at the fee value 5, the
execution-unit value 2^64 and the withdrawal value 2^63. -/
theorem c9_numeric_widths_witness :
    NumInt.fromJson (Json.num 5) = Except.ok 5 ∧
    ExUnitsBudget.fromJson
        (Json.obj [("memory", Json.num 18446744073709551616), ("cpu", Json.num 0)]) =
      Except.error (GoErr.msg "number out of range for uint64") ∧
    withdrawalsFromJson (Json.obj [("addr", Json.num 9223372036854775808)]) =
      Except.error (GoErr.msg "number out of range for int64") :=
  c9_numeric_widths 5 18446744073709551616 9223372036854775808
    (by norm_num) (by norm_num)

/-- C9 (counterexample): decoding the execution-unit budget at memory 2^64
fails (fixed-width uint64) while the arbitrary-precision num.Int accepts
the same number, refuting the claim that every numeric field decodes into
an arbitrary-precision type. -/
theorem c9_numeric_widths_counterexample :
    ExUnitsBudget.fromJson
        (Json.obj [("memory", Json.num 18446744073709551616), ("cpu", Json.num 0)]) =
      Except.error (GoErr.msg "number out of range for uint64") ∧
    NumInt.fromJson (Json.num 18446744073709551616) =
      Except.ok 18446744073709551616 := by
  have hb : ¬((0 : Int) ≤ 18446744073709551616 ∧
      (18446744073709551616 : Int) < 18446744073709551616) := by norm_num
  exact ⟨by simp [ExUnitsBudget.fromJson, assocLookup, jsonSetUint64, goUint64, hb], rfl⟩

end Ogmigo
